import Mathlib

/-!
Verification of the EVM instruction-table subsystem of this repository.

The new-layout jump table (`src/unnamed/part_000`, package `vm`) and the
old-layout jump table (`src/core/vm/jump_table.go`) are embedded below.
Function-valued fields (`execute`, `dynamicGas`, `memorySize`,
`validateStack`) are represented by the *names* of the functions the source
stores in them; the jump-table layer never calls them, it only stores,
copies and nil-checks them, so the names carry exactly the information the
table-construction code manipulates.

Parts of the repository that the jump tables reference but that are not in
`src/` (opcode byte constants from `opcodes.go`, the `minStack`/`maxStack`
helper family from `stack_table.go`, gas constants from `params`, the
`enable*` EIP patch functions from `eips.go`, and the body of
`opUndefined` from `instructions.go`) are modelled from the spec; each
such definition carries a doc comment starting `Modelled from the spec:`.
-/

set_option maxHeartbeats 4000000
set_option maxRecDepth 100000
set_option linter.unusedVariables false

namespace GoEthVM

/-- Modelled from the spec: consensus-fixed opcode byte values
(`opcodes.go` is not in `src/`; the spec fixes the names and states the
byte values are consensus-fixed, so the canonical EVM values are used). -/
def STOP : Nat := 0x00

/-- Modelled from the spec: consensus-fixed opcode byte (`opcodes.go` absent). -/
def ADD : Nat := 0x01

/-- Modelled from the spec: consensus-fixed opcode byte (`opcodes.go` absent). -/
def MUL : Nat := 0x02

/-- Modelled from the spec: consensus-fixed opcode byte (`opcodes.go` absent). -/
def SUB : Nat := 0x03

/-- Modelled from the spec: consensus-fixed opcode byte (`opcodes.go` absent). -/
def DIV : Nat := 0x04

/-- Modelled from the spec: consensus-fixed opcode byte (`opcodes.go` absent). -/
def SDIV : Nat := 0x05

/-- Modelled from the spec: consensus-fixed opcode byte (`opcodes.go` absent). -/
def MOD : Nat := 0x06

/-- Modelled from the spec: consensus-fixed opcode byte (`opcodes.go` absent). -/
def SMOD : Nat := 0x07

/-- Modelled from the spec: consensus-fixed opcode byte (`opcodes.go` absent). -/
def ADDMOD : Nat := 0x08

/-- Modelled from the spec: consensus-fixed opcode byte (`opcodes.go` absent). -/
def MULMOD : Nat := 0x09

/-- Modelled from the spec: consensus-fixed opcode byte (`opcodes.go` absent). -/
def EXP : Nat := 0x0a

/-- Modelled from the spec: consensus-fixed opcode byte (`opcodes.go` absent). -/
def SIGNEXTEND : Nat := 0x0b

/-- Modelled from the spec: consensus-fixed opcode byte (`opcodes.go` absent). -/
def LT : Nat := 0x10

/-- Modelled from the spec: consensus-fixed opcode byte (`opcodes.go` absent). -/
def GT : Nat := 0x11

/-- Modelled from the spec: consensus-fixed opcode byte (`opcodes.go` absent). -/
def SLT : Nat := 0x12

/-- Modelled from the spec: consensus-fixed opcode byte (`opcodes.go` absent). -/
def SGT : Nat := 0x13

/-- Modelled from the spec: consensus-fixed opcode byte (`opcodes.go` absent). -/
def EQ : Nat := 0x14

/-- Modelled from the spec: consensus-fixed opcode byte (`opcodes.go` absent). -/
def ISZERO : Nat := 0x15

/-- Modelled from the spec: consensus-fixed opcode byte (`opcodes.go` absent). -/
def AND : Nat := 0x16

/-- Modelled from the spec: consensus-fixed opcode byte (`opcodes.go` absent). -/
def OR : Nat := 0x17

/-- Modelled from the spec: consensus-fixed opcode byte (`opcodes.go` absent). -/
def XOR : Nat := 0x18

/-- Modelled from the spec: consensus-fixed opcode byte (`opcodes.go` absent). -/
def NOT : Nat := 0x19

/-- Modelled from the spec: consensus-fixed opcode byte (`opcodes.go` absent). -/
def BYTE : Nat := 0x1a

/-- Modelled from the spec: consensus-fixed opcode byte (`opcodes.go` absent). -/
def SHL : Nat := 0x1b

/-- Modelled from the spec: consensus-fixed opcode byte (`opcodes.go` absent). -/
def SHR : Nat := 0x1c

/-- Modelled from the spec: consensus-fixed opcode byte (`opcodes.go` absent). -/
def SAR : Nat := 0x1d

/-- Modelled from the spec: consensus-fixed opcode byte (`opcodes.go` absent);
named `SHA3` in the old-layout file, `KECCAK256` in the new one, same byte. -/
def KECCAK256 : Nat := 0x20

/-- Modelled from the spec: consensus-fixed opcode byte (`opcodes.go` absent). -/
def SHA3 : Nat := 0x20

/-- Modelled from the spec: consensus-fixed opcode byte (`opcodes.go` absent). -/
def ADDRESS : Nat := 0x30

/-- Modelled from the spec: consensus-fixed opcode byte (`opcodes.go` absent). -/
def BALANCE : Nat := 0x31

/-- Modelled from the spec: consensus-fixed opcode byte (`opcodes.go` absent). -/
def ORIGIN : Nat := 0x32

/-- Modelled from the spec: consensus-fixed opcode byte (`opcodes.go` absent). -/
def CALLER : Nat := 0x33

/-- Modelled from the spec: consensus-fixed opcode byte (`opcodes.go` absent). -/
def CALLVALUE : Nat := 0x34

/-- Modelled from the spec: consensus-fixed opcode byte (`opcodes.go` absent). -/
def CALLDATALOAD : Nat := 0x35

/-- Modelled from the spec: consensus-fixed opcode byte (`opcodes.go` absent). -/
def CALLDATASIZE : Nat := 0x36

/-- Modelled from the spec: consensus-fixed opcode byte (`opcodes.go` absent). -/
def CALLDATACOPY : Nat := 0x37

/-- Modelled from the spec: consensus-fixed opcode byte (`opcodes.go` absent). -/
def CODESIZE : Nat := 0x38

/-- Modelled from the spec: consensus-fixed opcode byte (`opcodes.go` absent). -/
def CODECOPY : Nat := 0x39

/-- Modelled from the spec: consensus-fixed opcode byte (`opcodes.go` absent). -/
def GASPRICE : Nat := 0x3a

/-- Modelled from the spec: consensus-fixed opcode byte (`opcodes.go` absent). -/
def EXTCODESIZE : Nat := 0x3b

/-- Modelled from the spec: consensus-fixed opcode byte (`opcodes.go` absent). -/
def EXTCODECOPY : Nat := 0x3c

/-- Modelled from the spec: consensus-fixed opcode byte (`opcodes.go` absent). -/
def RETURNDATASIZE : Nat := 0x3d

/-- Modelled from the spec: consensus-fixed opcode byte (`opcodes.go` absent). -/
def RETURNDATACOPY : Nat := 0x3e

/-- Modelled from the spec: consensus-fixed opcode byte (`opcodes.go` absent). -/
def EXTCODEHASH : Nat := 0x3f

/-- Modelled from the spec: consensus-fixed opcode byte (`opcodes.go` absent). -/
def BLOCKHASH : Nat := 0x40

/-- Modelled from the spec: consensus-fixed opcode byte (`opcodes.go` absent). -/
def COINBASE : Nat := 0x41

/-- Modelled from the spec: consensus-fixed opcode byte (`opcodes.go` absent). -/
def TIMESTAMP : Nat := 0x42

/-- Modelled from the spec: consensus-fixed opcode byte (`opcodes.go` absent). -/
def NUMBER : Nat := 0x43

/-- Modelled from the spec: consensus-fixed opcode byte (`opcodes.go` absent). -/
def DIFFICULTY : Nat := 0x44

/-- Modelled from the spec: consensus-fixed opcode byte (`opcodes.go` absent). -/
def GASLIMIT : Nat := 0x45

/-- Modelled from the spec: consensus-fixed opcode byte (`opcodes.go` absent). -/
def CHAINID : Nat := 0x46

/-- Modelled from the spec: consensus-fixed opcode byte (`opcodes.go` absent). -/
def SELFBALANCE : Nat := 0x47

/-- Modelled from the spec: consensus-fixed opcode byte (`opcodes.go` absent). -/
def BASEFEE : Nat := 0x48

/-- Modelled from the spec: consensus-fixed opcode byte (`opcodes.go` absent). -/
def POP : Nat := 0x50

/-- Modelled from the spec: consensus-fixed opcode byte (`opcodes.go` absent). -/
def MLOAD : Nat := 0x51

/-- Modelled from the spec: consensus-fixed opcode byte (`opcodes.go` absent). -/
def MSTORE : Nat := 0x52

/-- Modelled from the spec: consensus-fixed opcode byte (`opcodes.go` absent). -/
def MSTORE8 : Nat := 0x53

/-- Modelled from the spec: consensus-fixed opcode byte (`opcodes.go` absent). -/
def SLOAD : Nat := 0x54

/-- Modelled from the spec: consensus-fixed opcode byte (`opcodes.go` absent). -/
def SSTORE : Nat := 0x55

/-- Modelled from the spec: consensus-fixed opcode byte (`opcodes.go` absent). -/
def JUMP : Nat := 0x56

/-- Modelled from the spec: consensus-fixed opcode byte (`opcodes.go` absent). -/
def JUMPI : Nat := 0x57

/-- Modelled from the spec: consensus-fixed opcode byte (`opcodes.go` absent). -/
def PC : Nat := 0x58

/-- Modelled from the spec: consensus-fixed opcode byte (`opcodes.go` absent). -/
def MSIZE : Nat := 0x59

/-- Modelled from the spec: consensus-fixed opcode byte (`opcodes.go` absent). -/
def GAS : Nat := 0x5a

/-- Modelled from the spec: consensus-fixed opcode byte (`opcodes.go` absent). -/
def JUMPDEST : Nat := 0x5b

/-- Modelled from the spec: consensus-fixed opcode byte (`opcodes.go` absent);
PUSH1 is 0x60, PUSH2 0x61, ..., PUSH32 0x7f. -/
def PUSH1 : Nat := 0x60

/-- Modelled from the spec: consensus-fixed opcode byte (`opcodes.go` absent);
DUP1 is 0x80, ..., DUP16 0x8f. -/
def DUP1 : Nat := 0x80

/-- Modelled from the spec: consensus-fixed opcode byte (`opcodes.go` absent);
SWAP1 is 0x90, ..., SWAP16 0x9f. -/
def SWAP1 : Nat := 0x90

/-- Modelled from the spec: consensus-fixed opcode byte (`opcodes.go` absent);
LOG0 is 0xa0, ..., LOG4 0xa4. -/
def LOG0 : Nat := 0xa0

/-- Modelled from the spec: consensus-fixed opcode byte (`opcodes.go` absent). -/
def CREATE : Nat := 0xf0

/-- Modelled from the spec: consensus-fixed opcode byte (`opcodes.go` absent). -/
def CALL : Nat := 0xf1

/-- Modelled from the spec: consensus-fixed opcode byte (`opcodes.go` absent). -/
def CALLCODE : Nat := 0xf2

/-- Modelled from the spec: consensus-fixed opcode byte (`opcodes.go` absent). -/
def RETURN : Nat := 0xf3

/-- Modelled from the spec: consensus-fixed opcode byte (`opcodes.go` absent). -/
def DELEGATECALL : Nat := 0xf4

/-- Modelled from the spec: consensus-fixed opcode byte (`opcodes.go` absent). -/
def CREATE2 : Nat := 0xf5

/-- Modelled from the spec: consensus-fixed opcode byte (`opcodes.go` absent). -/
def STATICCALL : Nat := 0xfa

/-- Modelled from the spec: consensus-fixed opcode byte (`opcodes.go` absent). -/
def REVERT : Nat := 0xfd

/-- Modelled from the spec: consensus-fixed opcode byte (`opcodes.go` absent). -/
def SELFDESTRUCT : Nat := 0xff

/-- Name of an execution function (`executionFunc` value) stored in a jump
table.  The table layer only stores, copies and nil-checks these functions,
so only their identity matters for the claims; each source function name is
given a distinct numeric code below.  `opPush n`, `opDup n`, `opSwap n`
abbreviate the thirty-two `opPushN`, sixteen `opDupN` and sixteen `opSwapN`
functions of the new layout, and `makeLog n` / `makePush a b` / `makeDup n`
/ `makeSwap n` denote the closures the source builds with those factories. -/
structure ExecName where
  code : Nat
deriving DecidableEq

namespace ExecName

def opStop : ExecName := ⟨0⟩
def opAdd : ExecName := ⟨1⟩
def opMul : ExecName := ⟨2⟩
def opSub : ExecName := ⟨3⟩
def opDiv : ExecName := ⟨4⟩
def opSdiv : ExecName := ⟨5⟩
def opMod : ExecName := ⟨6⟩
def opSmod : ExecName := ⟨7⟩
def opAddmod : ExecName := ⟨8⟩
def opMulmod : ExecName := ⟨9⟩
def opExp : ExecName := ⟨10⟩
def opSignExtend : ExecName := ⟨11⟩
def opLt : ExecName := ⟨12⟩
def opGt : ExecName := ⟨13⟩
def opSlt : ExecName := ⟨14⟩
def opSgt : ExecName := ⟨15⟩
def opEq : ExecName := ⟨16⟩
def opIszero : ExecName := ⟨17⟩
def opAnd : ExecName := ⟨18⟩
def opXor : ExecName := ⟨19⟩
def opOr : ExecName := ⟨20⟩
def opNot : ExecName := ⟨21⟩
def opByte : ExecName := ⟨22⟩
def opKeccak256 : ExecName := ⟨23⟩
def opSha3 : ExecName := ⟨24⟩
def opAddress : ExecName := ⟨25⟩
def opBalance : ExecName := ⟨26⟩
def opOrigin : ExecName := ⟨27⟩
def opCaller : ExecName := ⟨28⟩
def opCallValue : ExecName := ⟨29⟩
def opCallDataLoad : ExecName := ⟨30⟩
def opCallDataSize : ExecName := ⟨31⟩
def opCallDataCopy : ExecName := ⟨32⟩
def opCodeSize : ExecName := ⟨33⟩
def opCodeCopy : ExecName := ⟨34⟩
def opGasprice : ExecName := ⟨35⟩
def opExtCodeSize : ExecName := ⟨36⟩
def opExtCodeCopy : ExecName := ⟨37⟩
def opBlockhash : ExecName := ⟨38⟩
def opCoinbase : ExecName := ⟨39⟩
def opTimestamp : ExecName := ⟨40⟩
def opNumber : ExecName := ⟨41⟩
def opDifficulty : ExecName := ⟨42⟩
def opGasLimit : ExecName := ⟨43⟩
def opPop : ExecName := ⟨44⟩
def opMload : ExecName := ⟨45⟩
def opMstore : ExecName := ⟨46⟩
def opMstore8 : ExecName := ⟨47⟩
def opSload : ExecName := ⟨48⟩
def opSstore : ExecName := ⟨49⟩
def opJump : ExecName := ⟨50⟩
def opJumpi : ExecName := ⟨51⟩
def opPc : ExecName := ⟨52⟩
def opMsize : ExecName := ⟨53⟩
def opGas : ExecName := ⟨54⟩
def opJumpdest : ExecName := ⟨55⟩
def opCreate : ExecName := ⟨56⟩
def opCall : ExecName := ⟨57⟩
def opCallCode : ExecName := ⟨58⟩
def opReturn : ExecName := ⟨59⟩
def opSelfdestruct : ExecName := ⟨60⟩
def opSuicide : ExecName := ⟨61⟩
def opUndefined : ExecName := ⟨62⟩
def opDelegateCall : ExecName := ⟨63⟩
def opStaticCall : ExecName := ⟨64⟩
def opReturnDataSize : ExecName := ⟨65⟩
def opReturnDataCopy : ExecName := ⟨66⟩
def opRevert : ExecName := ⟨67⟩
def opSHL : ExecName := ⟨68⟩
def opSHR : ExecName := ⟨69⟩
def opSAR : ExecName := ⟨70⟩
def opExtCodeHash : ExecName := ⟨71⟩
def opCreate2 : ExecName := ⟨72⟩
def opChainID : ExecName := ⟨73⟩
def opSelfBalance : ExecName := ⟨74⟩
def opBaseFee : ExecName := ⟨75⟩
def push1 : ExecName := ⟨76⟩
def opPush (n : Nat) : ExecName := ⟨100 + n⟩
def makePush (size pushByteSize : Nat) : ExecName := ⟨200 + 33 * size + pushByteSize⟩
def opDup (n : Nat) : ExecName := ⟨1500 + n⟩
def makeDup (n : Nat) : ExecName := ⟨1540 + n⟩
def opSwap (n : Nat) : ExecName := ⟨1580 + n⟩
def makeSwap (n : Nat) : ExecName := ⟨1620 + n⟩
def makeLog (size : Nat) : ExecName := ⟨1660 + size⟩

end ExecName

/-- Name of a dynamic-gas function (`gasFunc` value) stored in a jump
table; `makeGasLog n` denotes the closure built by that factory. -/
structure GasName where
  code : Nat
deriving DecidableEq

namespace GasName

def gasExpFrontier : GasName := ⟨0⟩
def gasExpEIP158 : GasName := ⟨1⟩
def gasExp : GasName := ⟨2⟩
def gasKeccak256 : GasName := ⟨3⟩
def gasSha3 : GasName := ⟨4⟩
def gasCallDataCopy : GasName := ⟨5⟩
def gasCodeCopy : GasName := ⟨6⟩
def gasExtCodeCopy : GasName := ⟨7⟩
def gasMLoad : GasName := ⟨8⟩
def gasMStore : GasName := ⟨9⟩
def gasMStore8 : GasName := ⟨10⟩
def gasSStore : GasName := ⟨11⟩
def gasSLoad : GasName := ⟨12⟩
def gasBalance : GasName := ⟨13⟩
def gasExtCodeSize : GasName := ⟨14⟩
def gasExtCodeHash : GasName := ⟨15⟩
def gasCreate : GasName := ⟨16⟩
def gasCreate2 : GasName := ⟨17⟩
def gasCall : GasName := ⟨18⟩
def gasCallCode : GasName := ⟨19⟩
def gasReturn : GasName := ⟨20⟩
def gasRevert : GasName := ⟨21⟩
def gasSelfdestruct : GasName := ⟨22⟩
def gasSuicide : GasName := ⟨23⟩
def gasDelegateCall : GasName := ⟨24⟩
def gasStaticCall : GasName := ⟨25⟩
def gasReturnDataCopy : GasName := ⟨26⟩
def gasSStoreEIP2200 : GasName := ⟨27⟩
def gasSLoadEIP2929 : GasName := ⟨28⟩
def gasSStoreEIP2929 : GasName := ⟨29⟩
def gasBalanceEIP2929 : GasName := ⟨30⟩
def gasExtCodeSizeEIP2929 : GasName := ⟨31⟩
def gasExtCodeCopyEIP2929 : GasName := ⟨32⟩
def gasExtCodeHashEIP2929 : GasName := ⟨33⟩
def gasSStoreEIP3529 : GasName := ⟨34⟩
def gasSelfdestructEIP3529 : GasName := ⟨35⟩
def makeGasLog (n : Nat) : GasName := ⟨100 + n⟩

end GasName

/-- Name of a memory-size function (`memorySizeFunc` value) stored in a
jump table. -/
structure MemName where
  code : Nat
deriving DecidableEq

namespace MemName

def memoryKeccak256 : MemName := ⟨0⟩
def memorySha3 : MemName := ⟨1⟩
def memoryCallDataCopy : MemName := ⟨2⟩
def memoryCodeCopy : MemName := ⟨3⟩
def memoryExtCodeCopy : MemName := ⟨4⟩
def memoryMLoad : MemName := ⟨5⟩
def memoryMStore : MemName := ⟨6⟩
def memoryMStore8 : MemName := ⟨7⟩
def memoryLog : MemName := ⟨8⟩
def memoryCreate : MemName := ⟨9⟩
def memoryCreate2 : MemName := ⟨10⟩
def memoryCall : MemName := ⟨11⟩
def memoryReturn : MemName := ⟨12⟩
def memoryRevert : MemName := ⟨13⟩
def memoryDelegateCall : MemName := ⟨14⟩
def memoryStaticCall : MemName := ⟨15⟩
def memoryReturnDataCopy : MemName := ⟨16⟩

end MemName

/-- Name of a stack-validation function (`stackValidationFunc` value) of
the old-layout variant. -/
structure StackValidName where
  code : Nat
deriving DecidableEq

namespace StackValidName

def pop0push0 : StackValidName := ⟨0⟩
def pop0push1 : StackValidName := ⟨1⟩
def pop1push0 : StackValidName := ⟨2⟩
def makeStackFunc (pop push : Nat) : StackValidName := ⟨100 + 100 * pop + push⟩
def makeDupStackFunc (n : Nat) : StackValidName := ⟨1000 + n⟩
def makeSwapStackFunc (n : Nat) : StackValidName := ⟨1100 + n⟩

end StackValidName

/-- Modelled from the spec: gas-constant `GasQuickStep` (`gas.go` of
package `vm` is absent from `src/`); canonical value 2. -/
def GasQuickStep : Nat := 2

/-- Modelled from the spec: gas-constant `GasFastestStep` (absent from `src/`); 3. -/
def GasFastestStep : Nat := 3

/-- Modelled from the spec: gas-constant `GasFastStep` (absent from `src/`); 5. -/
def GasFastStep : Nat := 5

/-- Modelled from the spec: gas-constant `GasMidStep` (absent from `src/`); 8. -/
def GasMidStep : Nat := 8

/-- Modelled from the spec: gas-constant `GasSlowStep` (absent from `src/`); 10. -/
def GasSlowStep : Nat := 10

/-- Modelled from the spec: gas-constant `GasExtStep` (absent from `src/`); 20. -/
def GasExtStep : Nat := 20

/- Constants of the `params` package, which is absent from `src/`; the
canonical go-ethereum values are used.  Only their identities matter for
the claims, except in C7 where the EIP-150 values must differ from the
Frontier ones. -/
namespace params

/-- Modelled from the spec: `params.StackLimit` (package absent from `src/`). -/
def StackLimit : Nat := 1024

/-- Modelled from the spec: `params.Keccak256Gas` (package absent from `src/`). -/
def Keccak256Gas : Nat := 30

/-- Modelled from the spec: `params.BalanceGasFrontier` (package absent from `src/`). -/
def BalanceGasFrontier : Nat := 20

/-- Modelled from the spec: `params.BalanceGasEIP150` (package absent from `src/`). -/
def BalanceGasEIP150 : Nat := 400

/-- Modelled from the spec: `params.BalanceGasEIP1884` (package absent from `src/`). -/
def BalanceGasEIP1884 : Nat := 700

/-- Modelled from the spec: `params.ExtcodeSizeGasFrontier` (package absent from `src/`). -/
def ExtcodeSizeGasFrontier : Nat := 20

/-- Modelled from the spec: `params.ExtcodeSizeGasEIP150` (package absent from `src/`). -/
def ExtcodeSizeGasEIP150 : Nat := 700

/-- Modelled from the spec: `params.ExtcodeCopyBaseFrontier` (package absent from `src/`). -/
def ExtcodeCopyBaseFrontier : Nat := 20

/-- Modelled from the spec: `params.ExtcodeCopyBaseEIP150` (package absent from `src/`). -/
def ExtcodeCopyBaseEIP150 : Nat := 700

/-- Modelled from the spec: `params.SloadGasFrontier` (package absent from `src/`). -/
def SloadGasFrontier : Nat := 50

/-- Modelled from the spec: `params.SloadGasEIP150` (package absent from `src/`). -/
def SloadGasEIP150 : Nat := 200

/-- Modelled from the spec: `params.SloadGasEIP1884` (package absent from `src/`). -/
def SloadGasEIP1884 : Nat := 800

/-- Modelled from the spec: `params.CallGasFrontier` (package absent from `src/`). -/
def CallGasFrontier : Nat := 40

/-- Modelled from the spec: `params.CallGasEIP150` (package absent from `src/`). -/
def CallGasEIP150 : Nat := 700

/-- Modelled from the spec: `params.JumpdestGas` (package absent from `src/`). -/
def JumpdestGas : Nat := 1

/-- Modelled from the spec: `params.CreateGas` (package absent from `src/`). -/
def CreateGas : Nat := 32000

/-- Modelled from the spec: `params.Create2Gas` (package absent from `src/`). -/
def Create2Gas : Nat := 32000

/-- Modelled from the spec: `params.ExtcodeHashGasConstantinople` (package absent from `src/`). -/
def ExtcodeHashGasConstantinople : Nat := 400

/-- Modelled from the spec: `params.ExtcodeHashGasEIP1884` (package absent from `src/`). -/
def ExtcodeHashGasEIP1884 : Nat := 700

end params

namespace New

/-- Modelled from the spec: `minStack` from `stack_table.go` (absent from
`src/`).  The spec fixes `min_stack = p` for an opcode popping `p`. -/
def minStack (pops push : Int) : Int := pops

/-- Modelled from the spec: `maxStack` from `stack_table.go` (absent from
`src/`).  The spec fixes `max_stack = 1024 - q + p` for an opcode popping
`p` and pushing `q` (stack limit 1024). -/
def maxStack (pop push : Int) : Int := (params.StackLimit : Int) + pop - push

/-- Modelled from the spec: `minDupStack` from `stack_table.go` (absent
from `src/`); DUP-n pops n and pushes n+1, giving `min_stack = n`. -/
def minDupStack (n : Int) : Int := minStack n (n + 1)

/-- Modelled from the spec: `maxDupStack` from `stack_table.go` (absent
from `src/`); gives `max_stack = 1023` for every DUP-n. -/
def maxDupStack (n : Int) : Int := maxStack n (n + 1)

/-- Modelled from the spec: `minSwapStack` from `stack_table.go` (absent
from `src/`); SWAP-n is invoked with argument n+1 and pops and pushes it. -/
def minSwapStack (n : Int) : Int := minStack n n

/-- Modelled from the spec: `maxSwapStack` from `stack_table.go` (absent
from `src/`); gives `max_stack = 1024` for every SWAP-n. -/
def maxSwapStack (n : Int) : Int := maxStack n n

/-- The new-layout `operation` record of `src/unnamed/part_000`.  Field
defaults are the Go zero values, so a literal listing only some fields
means the same thing it does in the source. -/
structure operation where
  execute : ExecName
  constantGas : Nat := 0
  dynamicGas : Option GasName := none
  minStack : Int := 0
  maxStack : Int := 0
  memorySize : Option MemName := none
deriving DecidableEq

/-- `JumpTable [256]*operation`: slot `i` (for `i < 256`) holds `none`
exactly when the Go array holds a nil pointer. -/
abbrev JumpTable := Nat → Option operation

/-- Assignment `jt[idx] = &operation{...}` to a slot of a jump table. -/
def setOp (jt : JumpTable) (idx : Nat) (op : operation) : JumpTable :=
  fun i => if i = idx then some op else jt i

/-- Field assignment `jt[idx].constantGas = g` through the slot's pointer. -/
def setConstantGas (jt : JumpTable) (idx : Nat) (g : Nat) : JumpTable :=
  fun i => if i = idx then (jt i).map (fun op => { op with constantGas := g }) else jt i

/-- Field assignment `jt[idx].dynamicGas = f` through the slot's pointer. -/
def setDynamicGas (jt : JumpTable) (idx : Nat) (f : GasName) : JumpTable :=
  fun i => if i = idx then (jt i).map (fun op => { op with dynamicGas := some f }) else jt i

/-- The two panics `validate` can raise, with the offending opcode byte. -/
inductive PanicMsg where
  | opNotSet (i : Nat)
  | dynamicMemoryButNotDynamicGas (i : Nat)
deriving DecidableEq

/-- The check `validate` performs at slot `i`: a nil slot, or a slot whose
record has `memorySize` set but `dynamicGas` nil, is a violation. -/
def violation (jt : JumpTable) (i : Nat) : Option PanicMsg :=
  match jt i with
  | none => some (.opNotSet i)
  | some op =>
      if op.memorySize.isSome ∧ op.dynamicGas = none then
        some (.dynamicMemoryButNotDynamicGas i)
      else none

/-- `validate` of `src/unnamed/part_000`: scans all 256 slots in order and
panics (modelled as `Except.error`) at the first violation, otherwise
returns the table unchanged. -/
def validate (jt : JumpTable) : Except PanicMsg JumpTable :=
  match (List.range 256).findSome? (violation jt) with
  | some msg => .error msg
  | none => .ok jt

/-- `validate` succeeds iff no slot violates the two checks. -/
def validateOk (jt : JumpTable) : Bool :=
  ((List.range 256).findSome? (violation jt)).isNone

open ExecName GasName MemName GoEthVM.params in
/-- Part 1 of the keyed entries of the Frontier `JumpTable` literal (see `frontierEntries`). -/
def frontierEntries0 : List (Nat × operation) := [
  (STOP, { execute := opStop, constantGas := 0, minStack := minStack 0 0, maxStack := maxStack 0 0 }),
  (ADD, { execute := opAdd, constantGas := GasFastestStep, minStack := minStack 2 1, maxStack := maxStack 2 1 }),
  (MUL, { execute := opMul, constantGas := GasFastStep, minStack := minStack 2 1, maxStack := maxStack 2 1 }),
  (SUB, { execute := opSub, constantGas := GasFastestStep, minStack := minStack 2 1, maxStack := maxStack 2 1 }),
  (DIV, { execute := opDiv, constantGas := GasFastStep, minStack := minStack 2 1, maxStack := maxStack 2 1 }),
  (SDIV, { execute := opSdiv, constantGas := GasFastStep, minStack := minStack 2 1, maxStack := maxStack 2 1 }),
  (MOD, { execute := opMod, constantGas := GasFastStep, minStack := minStack 2 1, maxStack := maxStack 2 1 }),
  (SMOD, { execute := opSmod, constantGas := GasFastStep, minStack := minStack 2 1, maxStack := maxStack 2 1 }),
  (ADDMOD, { execute := opAddmod, constantGas := GasMidStep, minStack := minStack 3 1, maxStack := maxStack 3 1 }),
  (MULMOD, { execute := opMulmod, constantGas := GasMidStep, minStack := minStack 3 1, maxStack := maxStack 3 1 }),
  (EXP, { execute := opExp, dynamicGas := some gasExpFrontier, minStack := minStack 2 1, maxStack := maxStack 2 1 }),
  (SIGNEXTEND, { execute := opSignExtend, constantGas := GasFastStep, minStack := minStack 2 1, maxStack := maxStack 2 1 }),
  (LT, { execute := opLt, constantGas := GasFastestStep, minStack := minStack 2 1, maxStack := maxStack 2 1 }),
  (GT, { execute := opGt, constantGas := GasFastestStep, minStack := minStack 2 1, maxStack := maxStack 2 1 }),
  (SLT, { execute := opSlt, constantGas := GasFastestStep, minStack := minStack 2 1, maxStack := maxStack 2 1 }),
  (SGT, { execute := opSgt, constantGas := GasFastestStep, minStack := minStack 2 1, maxStack := maxStack 2 1 }),
  (EQ, { execute := opEq, constantGas := GasFastestStep, minStack := minStack 2 1, maxStack := maxStack 2 1 }),
  (ISZERO, { execute := opIszero, constantGas := GasFastestStep, minStack := minStack 1 1, maxStack := maxStack 1 1 }),
  (AND, { execute := opAnd, constantGas := GasFastestStep, minStack := minStack 2 1, maxStack := maxStack 2 1 }),
  (XOR, { execute := opXor, constantGas := GasFastestStep, minStack := minStack 2 1, maxStack := maxStack 2 1 }),
  (OR, { execute := opOr, constantGas := GasFastestStep, minStack := minStack 2 1, maxStack := maxStack 2 1 }),
  (NOT, { execute := opNot, constantGas := GasFastestStep, minStack := minStack 1 1, maxStack := maxStack 1 1 }),
  (BYTE, { execute := opByte, constantGas := GasFastestStep, minStack := minStack 2 1, maxStack := maxStack 2 1 }),
  (KECCAK256, { execute := opKeccak256, constantGas := Keccak256Gas, dynamicGas := some gasKeccak256, minStack := minStack 2 1, maxStack := maxStack 2 1, memorySize := some memoryKeccak256 }),
  (ADDRESS, { execute := opAddress, constantGas := GasQuickStep, minStack := minStack 0 1, maxStack := maxStack 0 1 }),
  (BALANCE, { execute := opBalance, constantGas := BalanceGasFrontier, minStack := minStack 1 1, maxStack := maxStack 1 1 }),
  (ORIGIN, { execute := opOrigin, constantGas := GasQuickStep, minStack := minStack 0 1, maxStack := maxStack 0 1 }),
  (CALLER, { execute := opCaller, constantGas := GasQuickStep, minStack := minStack 0 1, maxStack := maxStack 0 1 }),
  (CALLVALUE, { execute := opCallValue, constantGas := GasQuickStep, minStack := minStack 0 1, maxStack := maxStack 0 1 }),
  (CALLDATALOAD, { execute := opCallDataLoad, constantGas := GasFastestStep, minStack := minStack 1 1, maxStack := maxStack 1 1 }),
  (CALLDATASIZE, { execute := opCallDataSize, constantGas := GasQuickStep, minStack := minStack 0 1, maxStack := maxStack 0 1 }),
  (CALLDATACOPY, { execute := opCallDataCopy, constantGas := GasFastestStep, dynamicGas := some gasCallDataCopy, minStack := minStack 3 0, maxStack := maxStack 3 0, memorySize := some memoryCallDataCopy }),
  (CODESIZE, { execute := opCodeSize, constantGas := GasQuickStep, minStack := minStack 0 1, maxStack := maxStack 0 1 })
]

open ExecName GasName MemName GoEthVM.params in
/-- Part 2 of the keyed entries of the Frontier `JumpTable` literal (see `frontierEntries`). -/
def frontierEntries1 : List (Nat × operation) := [
  (CODECOPY, { execute := opCodeCopy, constantGas := GasFastestStep, dynamicGas := some gasCodeCopy, minStack := minStack 3 0, maxStack := maxStack 3 0, memorySize := some memoryCodeCopy }),
  (GASPRICE, { execute := opGasprice, constantGas := GasQuickStep, minStack := minStack 0 1, maxStack := maxStack 0 1 }),
  (EXTCODESIZE, { execute := opExtCodeSize, constantGas := ExtcodeSizeGasFrontier, minStack := minStack 1 1, maxStack := maxStack 1 1 }),
  (EXTCODECOPY, { execute := opExtCodeCopy, constantGas := ExtcodeCopyBaseFrontier, dynamicGas := some gasExtCodeCopy, minStack := minStack 4 0, maxStack := maxStack 4 0, memorySize := some memoryExtCodeCopy }),
  (BLOCKHASH, { execute := opBlockhash, constantGas := GasExtStep, minStack := minStack 1 1, maxStack := maxStack 1 1 }),
  (COINBASE, { execute := opCoinbase, constantGas := GasQuickStep, minStack := minStack 0 1, maxStack := maxStack 0 1 }),
  (TIMESTAMP, { execute := opTimestamp, constantGas := GasQuickStep, minStack := minStack 0 1, maxStack := maxStack 0 1 }),
  (NUMBER, { execute := opNumber, constantGas := GasQuickStep, minStack := minStack 0 1, maxStack := maxStack 0 1 }),
  (DIFFICULTY, { execute := opDifficulty, constantGas := GasQuickStep, minStack := minStack 0 1, maxStack := maxStack 0 1 }),
  (GASLIMIT, { execute := opGasLimit, constantGas := GasQuickStep, minStack := minStack 0 1, maxStack := maxStack 0 1 }),
  (POP, { execute := opPop, constantGas := GasQuickStep, minStack := minStack 1 0, maxStack := maxStack 1 0 }),
  (MLOAD, { execute := opMload, constantGas := GasFastestStep, dynamicGas := some gasMLoad, minStack := minStack 1 1, maxStack := maxStack 1 1, memorySize := some memoryMLoad }),
  (MSTORE, { execute := opMstore, constantGas := GasFastestStep, dynamicGas := some gasMStore, minStack := minStack 2 0, maxStack := maxStack 2 0, memorySize := some memoryMStore }),
  (MSTORE8, { execute := opMstore8, constantGas := GasFastestStep, dynamicGas := some gasMStore8, memorySize := some memoryMStore8, minStack := minStack 2 0, maxStack := maxStack 2 0 }),
  (SLOAD, { execute := opSload, constantGas := SloadGasFrontier, minStack := minStack 1 1, maxStack := maxStack 1 1 }),
  (SSTORE, { execute := opSstore, dynamicGas := some gasSStore, minStack := minStack 2 0, maxStack := maxStack 2 0 }),
  (JUMP, { execute := opJump, constantGas := GasMidStep, minStack := minStack 1 0, maxStack := maxStack 1 0 }),
  (JUMPI, { execute := opJumpi, constantGas := GasSlowStep, minStack := minStack 2 0, maxStack := maxStack 2 0 }),
  (PC, { execute := opPc, constantGas := GasQuickStep, minStack := minStack 0 1, maxStack := maxStack 0 1 }),
  (MSIZE, { execute := opMsize, constantGas := GasQuickStep, minStack := minStack 0 1, maxStack := maxStack 0 1 }),
  (GAS, { execute := opGas, constantGas := GasQuickStep, minStack := minStack 0 1, maxStack := maxStack 0 1 }),
  (JUMPDEST, { execute := opJumpdest, constantGas := JumpdestGas, minStack := minStack 0 0, maxStack := maxStack 0 0 }),
  (PUSH1, { execute := opPush 1, constantGas := GasFastestStep, minStack := minStack 0 1, maxStack := maxStack 0 1 }),
  (PUSH1 + 1, { execute := opPush 2, constantGas := GasFastestStep, minStack := minStack 0 1, maxStack := maxStack 0 1 }),
  (PUSH1 + 2, { execute := opPush 3, constantGas := GasFastestStep, minStack := minStack 0 1, maxStack := maxStack 0 1 }),
  (PUSH1 + 3, { execute := opPush 4, constantGas := GasFastestStep, minStack := minStack 0 1, maxStack := maxStack 0 1 }),
  (PUSH1 + 4, { execute := opPush 5, constantGas := GasFastestStep, minStack := minStack 0 1, maxStack := maxStack 0 1 }),
  (PUSH1 + 5, { execute := opPush 6, constantGas := GasFastestStep, minStack := minStack 0 1, maxStack := maxStack 0 1 }),
  (PUSH1 + 6, { execute := opPush 7, constantGas := GasFastestStep, minStack := minStack 0 1, maxStack := maxStack 0 1 }),
  (PUSH1 + 7, { execute := opPush 8, constantGas := GasFastestStep, minStack := minStack 0 1, maxStack := maxStack 0 1 }),
  (PUSH1 + 8, { execute := opPush 9, constantGas := GasFastestStep, minStack := minStack 0 1, maxStack := maxStack 0 1 }),
  (PUSH1 + 9, { execute := opPush 10, constantGas := GasFastestStep, minStack := minStack 0 1, maxStack := maxStack 0 1 }),
  (PUSH1 + 10, { execute := opPush 11, constantGas := GasFastestStep, minStack := minStack 0 1, maxStack := maxStack 0 1 })
]

open ExecName GasName MemName GoEthVM.params in
/-- Part 3 of the keyed entries of the Frontier `JumpTable` literal (see `frontierEntries`). -/
def frontierEntries2 : List (Nat × operation) := [
  (PUSH1 + 11, { execute := opPush 12, constantGas := GasFastestStep, minStack := minStack 0 1, maxStack := maxStack 0 1 }),
  (PUSH1 + 12, { execute := opPush 13, constantGas := GasFastestStep, minStack := minStack 0 1, maxStack := maxStack 0 1 }),
  (PUSH1 + 13, { execute := opPush 14, constantGas := GasFastestStep, minStack := minStack 0 1, maxStack := maxStack 0 1 }),
  (PUSH1 + 14, { execute := opPush 15, constantGas := GasFastestStep, minStack := minStack 0 1, maxStack := maxStack 0 1 }),
  (PUSH1 + 15, { execute := opPush 16, constantGas := GasFastestStep, minStack := minStack 0 1, maxStack := maxStack 0 1 }),
  (PUSH1 + 16, { execute := opPush 17, constantGas := GasFastestStep, minStack := minStack 0 1, maxStack := maxStack 0 1 }),
  (PUSH1 + 17, { execute := opPush 18, constantGas := GasFastestStep, minStack := minStack 0 1, maxStack := maxStack 0 1 }),
  (PUSH1 + 18, { execute := opPush 19, constantGas := GasFastestStep, minStack := minStack 0 1, maxStack := maxStack 0 1 }),
  (PUSH1 + 19, { execute := opPush 20, constantGas := GasFastestStep, minStack := minStack 0 1, maxStack := maxStack 0 1 }),
  (PUSH1 + 20, { execute := opPush 21, constantGas := GasFastestStep, minStack := minStack 0 1, maxStack := maxStack 0 1 }),
  (PUSH1 + 21, { execute := opPush 22, constantGas := GasFastestStep, minStack := minStack 0 1, maxStack := maxStack 0 1 }),
  (PUSH1 + 22, { execute := opPush 23, constantGas := GasFastestStep, minStack := minStack 0 1, maxStack := maxStack 0 1 }),
  (PUSH1 + 23, { execute := opPush 24, constantGas := GasFastestStep, minStack := minStack 0 1, maxStack := maxStack 0 1 }),
  (PUSH1 + 24, { execute := opPush 25, constantGas := GasFastestStep, minStack := minStack 0 1, maxStack := maxStack 0 1 }),
  (PUSH1 + 25, { execute := opPush 26, constantGas := GasFastestStep, minStack := minStack 0 1, maxStack := maxStack 0 1 }),
  (PUSH1 + 26, { execute := opPush 27, constantGas := GasFastestStep, minStack := minStack 0 1, maxStack := maxStack 0 1 }),
  (PUSH1 + 27, { execute := opPush 28, constantGas := GasFastestStep, minStack := minStack 0 1, maxStack := maxStack 0 1 }),
  (PUSH1 + 28, { execute := opPush 29, constantGas := GasFastestStep, minStack := minStack 0 1, maxStack := maxStack 0 1 }),
  (PUSH1 + 29, { execute := opPush 30, constantGas := GasFastestStep, minStack := minStack 0 1, maxStack := maxStack 0 1 }),
  (PUSH1 + 30, { execute := opPush 31, constantGas := GasFastestStep, minStack := minStack 0 1, maxStack := maxStack 0 1 }),
  (PUSH1 + 31, { execute := opPush 32, constantGas := GasFastestStep, minStack := minStack 0 1, maxStack := maxStack 0 1 }),
  (DUP1, { execute := opDup 1, constantGas := GasFastestStep, minStack := minDupStack 1, maxStack := maxDupStack 1 }),
  (DUP1 + 1, { execute := opDup 2, constantGas := GasFastestStep, minStack := minDupStack 2, maxStack := maxDupStack 2 }),
  (DUP1 + 2, { execute := opDup 3, constantGas := GasFastestStep, minStack := minDupStack 3, maxStack := maxDupStack 3 }),
  (DUP1 + 3, { execute := opDup 4, constantGas := GasFastestStep, minStack := minDupStack 4, maxStack := maxDupStack 4 }),
  (DUP1 + 4, { execute := opDup 5, constantGas := GasFastestStep, minStack := minDupStack 5, maxStack := maxDupStack 5 }),
  (DUP1 + 5, { execute := opDup 6, constantGas := GasFastestStep, minStack := minDupStack 6, maxStack := maxDupStack 6 }),
  (DUP1 + 6, { execute := opDup 7, constantGas := GasFastestStep, minStack := minDupStack 7, maxStack := maxDupStack 7 }),
  (DUP1 + 7, { execute := opDup 8, constantGas := GasFastestStep, minStack := minDupStack 8, maxStack := maxDupStack 8 }),
  (DUP1 + 8, { execute := opDup 9, constantGas := GasFastestStep, minStack := minDupStack 9, maxStack := maxDupStack 9 }),
  (DUP1 + 9, { execute := opDup 10, constantGas := GasFastestStep, minStack := minDupStack 10, maxStack := maxDupStack 10 }),
  (DUP1 + 10, { execute := opDup 11, constantGas := GasFastestStep, minStack := minDupStack 11, maxStack := maxDupStack 11 }),
  (DUP1 + 11, { execute := opDup 12, constantGas := GasFastestStep, minStack := minDupStack 12, maxStack := maxDupStack 12 })
]

open ExecName GasName MemName GoEthVM.params in
/-- Part 4 of the keyed entries of the Frontier `JumpTable` literal (see `frontierEntries`). -/
def frontierEntries3 : List (Nat × operation) := [
  (DUP1 + 12, { execute := opDup 13, constantGas := GasFastestStep, minStack := minDupStack 13, maxStack := maxDupStack 13 }),
  (DUP1 + 13, { execute := opDup 14, constantGas := GasFastestStep, minStack := minDupStack 14, maxStack := maxDupStack 14 }),
  (DUP1 + 14, { execute := opDup 15, constantGas := GasFastestStep, minStack := minDupStack 15, maxStack := maxDupStack 15 }),
  (DUP1 + 15, { execute := opDup 16, constantGas := GasFastestStep, minStack := minDupStack 16, maxStack := maxDupStack 16 }),
  (SWAP1, { execute := opSwap 1, constantGas := GasFastestStep, minStack := minSwapStack 2, maxStack := maxSwapStack 2 }),
  (SWAP1 + 1, { execute := opSwap 2, constantGas := GasFastestStep, minStack := minSwapStack 3, maxStack := maxSwapStack 3 }),
  (SWAP1 + 2, { execute := opSwap 3, constantGas := GasFastestStep, minStack := minSwapStack 4, maxStack := maxSwapStack 4 }),
  (SWAP1 + 3, { execute := opSwap 4, constantGas := GasFastestStep, minStack := minSwapStack 5, maxStack := maxSwapStack 5 }),
  (SWAP1 + 4, { execute := opSwap 5, constantGas := GasFastestStep, minStack := minSwapStack 6, maxStack := maxSwapStack 6 }),
  (SWAP1 + 5, { execute := opSwap 6, constantGas := GasFastestStep, minStack := minSwapStack 7, maxStack := maxSwapStack 7 }),
  (SWAP1 + 6, { execute := opSwap 7, constantGas := GasFastestStep, minStack := minSwapStack 8, maxStack := maxSwapStack 8 }),
  (SWAP1 + 7, { execute := opSwap 8, constantGas := GasFastestStep, minStack := minSwapStack 9, maxStack := maxSwapStack 9 }),
  (SWAP1 + 8, { execute := opSwap 9, constantGas := GasFastestStep, minStack := minSwapStack 10, maxStack := maxSwapStack 10 }),
  (SWAP1 + 9, { execute := opSwap 10, constantGas := GasFastestStep, minStack := minSwapStack 11, maxStack := maxSwapStack 11 }),
  (SWAP1 + 10, { execute := opSwap 11, constantGas := GasFastestStep, minStack := minSwapStack 12, maxStack := maxSwapStack 12 }),
  (SWAP1 + 11, { execute := opSwap 12, constantGas := GasFastestStep, minStack := minSwapStack 13, maxStack := maxSwapStack 13 }),
  (SWAP1 + 12, { execute := opSwap 13, constantGas := GasFastestStep, minStack := minSwapStack 14, maxStack := maxSwapStack 14 }),
  (SWAP1 + 13, { execute := opSwap 14, constantGas := GasFastestStep, minStack := minSwapStack 15, maxStack := maxSwapStack 15 }),
  (SWAP1 + 14, { execute := opSwap 15, constantGas := GasFastestStep, minStack := minSwapStack 16, maxStack := maxSwapStack 16 }),
  (SWAP1 + 15, { execute := opSwap 16, constantGas := GasFastestStep, minStack := minSwapStack 17, maxStack := maxSwapStack 17 }),
  (LOG0, { execute := makeLog 0, dynamicGas := some (makeGasLog 0), minStack := minStack 2 0, maxStack := maxStack 2 0, memorySize := some memoryLog }),
  (LOG0 + 1, { execute := makeLog 1, dynamicGas := some (makeGasLog 1), minStack := minStack 3 0, maxStack := maxStack 3 0, memorySize := some memoryLog }),
  (LOG0 + 2, { execute := makeLog 2, dynamicGas := some (makeGasLog 2), minStack := minStack 4 0, maxStack := maxStack 4 0, memorySize := some memoryLog }),
  (LOG0 + 3, { execute := makeLog 3, dynamicGas := some (makeGasLog 3), minStack := minStack 5 0, maxStack := maxStack 5 0, memorySize := some memoryLog }),
  (LOG0 + 4, { execute := makeLog 4, dynamicGas := some (makeGasLog 4), minStack := minStack 6 0, maxStack := maxStack 6 0, memorySize := some memoryLog }),
  (CREATE, { execute := opCreate, constantGas := CreateGas, dynamicGas := some gasCreate, minStack := minStack 3 1, maxStack := maxStack 3 1, memorySize := some memoryCreate }),
  (CALL, { execute := opCall, constantGas := CallGasFrontier, dynamicGas := some gasCall, minStack := minStack 7 1, maxStack := maxStack 7 1, memorySize := some memoryCall }),
  (CALLCODE, { execute := opCallCode, constantGas := CallGasFrontier, dynamicGas := some gasCallCode, minStack := minStack 7 1, maxStack := maxStack 7 1, memorySize := some memoryCall }),
  (RETURN, { execute := opReturn, dynamicGas := some gasReturn, minStack := minStack 2 0, maxStack := maxStack 2 0, memorySize := some memoryReturn }),
  (SELFDESTRUCT, { execute := opSelfdestruct, dynamicGas := some gasSelfdestruct, minStack := minStack 1 0, maxStack := maxStack 1 0 })
]

/-- The keyed entries of the `JumpTable{...}` literal in
`newFrontierInstructionSet` (`src/unnamed/part_000`, lines 223-1024),
transcribed in source order as (opcode byte, record) pairs; split into the
chunks above only to keep elaboration cheap. -/
def frontierEntries : List (Nat × operation) := frontierEntries0 ++ frontierEntries1 ++ frontierEntries2 ++ frontierEntries3

/-- The record the undefined-slot fill loop of `newFrontierInstructionSet`
allocates: `&operation{execute: opUndefined, maxStack: maxStack(0, 0)}`
(all other fields are Go zero values). -/
def undefinedOp : operation := { execute := ExecName.opUndefined, maxStack := maxStack 0 0 }

/-- The `JumpTable{...}` literal of `newFrontierInstructionSet` before the
undefined-slot fill: keyed slots hold their record, the rest are nil. -/
def frontierLiteral : JumpTable :=
  fun i => (frontierEntries.find? (fun p => p.1 == i)).map (fun p => p.2)

/-- The fill loop of `newFrontierInstructionSet`: every nil slot of the 256
is replaced by a pointer to a fresh undefined record. -/
def fillUndefined (jt : JumpTable) : JumpTable :=
  fun i => if i < 256 then some ((jt i).getD undefinedOp) else jt i

/-- The Frontier table as built by `newFrontierInstructionSet` just before
it is passed to `validate` (local variable `tbl` after the fill loop). -/
def frontierTable : JumpTable := fillUndefined frontierLiteral

/-- `newFrontierInstructionSet` (`src/unnamed/part_000`): builds the keyed
literal, fills unassigned slots with the undefined record, and returns
`validate(tbl)`. -/
def newFrontierInstructionSet : Except PanicMsg JumpTable :=
  validate frontierTable

open ExecName GasName MemName GoEthVM.params in
/-- The patch `newHomesteadInstructionSet` applies on top of the Frontier
set: assign DELEGATECALL (`src/unnamed/part_000`, lines 209-216). -/
def homesteadPatch (instructionSet : JumpTable) : JumpTable :=
  setOp instructionSet DELEGATECALL
    { execute := opDelegateCall, dynamicGas := some gasDelegateCall,
      constantGas := CallGasFrontier, minStack := minStack 6 1,
      maxStack := maxStack 6 1, memorySize := some memoryDelegateCall }

/-- `newHomesteadInstructionSet` (`src/unnamed/part_000`, lines 207-218). -/
def newHomesteadInstructionSet : Except PanicMsg JumpTable := do
  let instructionSet ← newFrontierInstructionSet
  validate (homesteadPatch instructionSet)

/-- The Homestead table before its final `validate`. -/
def homesteadTable : JumpTable := homesteadPatch frontierTable

open GoEthVM.params in
/-- The EIP-150 repricings `newTangerineWhistleInstructionSet` applies
(`src/unnamed/part_000`, lines 195-201): seven `constantGas` field
assignments through the slots' pointers. -/
def tangerineWhistlePatch (s0 : JumpTable) : JumpTable :=
  let s1 := setConstantGas s0 BALANCE BalanceGasEIP150
  let s2 := setConstantGas s1 EXTCODESIZE ExtcodeSizeGasEIP150
  let s3 := setConstantGas s2 SLOAD SloadGasEIP150
  let s4 := setConstantGas s3 EXTCODECOPY ExtcodeCopyBaseEIP150
  let s5 := setConstantGas s4 CALL CallGasEIP150
  let s6 := setConstantGas s5 CALLCODE CallGasEIP150
  setConstantGas s6 DELEGATECALL CallGasEIP150

/-- `newTangerineWhistleInstructionSet` (EIP 150,
`src/unnamed/part_000`, lines 193-203). -/
def newTangerineWhistleInstructionSet : Except PanicMsg JumpTable := do
  let instructionSet ← newHomesteadInstructionSet
  validate (tangerineWhistlePatch instructionSet)

/-- The Tangerine Whistle table before its final `validate`. -/
def tangerineWhistleTable : JumpTable := tangerineWhistlePatch homesteadTable

/-- The patch `newSpuriousDragonInstructionSet` applies
(`src/unnamed/part_000`, line 187): `instructionSet[EXP].dynamicGas =
gasExpEIP158`. -/
def spuriousDragonPatch (s : JumpTable) : JumpTable :=
  setDynamicGas s EXP GasName.gasExpEIP158

/-- `newSpuriousDragonInstructionSet` (EIP 158,
`src/unnamed/part_000`, lines 185-190). -/
def newSpuriousDragonInstructionSet : Except PanicMsg JumpTable := do
  let instructionSet ← newTangerineWhistleInstructionSet
  validate (spuriousDragonPatch instructionSet)

/-- The Spurious Dragon table before its final `validate`. -/
def spuriousDragonTable : JumpTable := spuriousDragonPatch tangerineWhistleTable

open ExecName GasName MemName GoEthVM.params in
/-- The patches `newByzantiumInstructionSet` applies
(`src/unnamed/part_000`, lines 152-180): assign STATICCALL,
RETURNDATASIZE, RETURNDATACOPY and REVERT. -/
def byzantiumPatch (s0 : JumpTable) : JumpTable :=
  let s1 := setOp s0 STATICCALL
    { execute := opStaticCall, constantGas := CallGasEIP150,
      dynamicGas := some gasStaticCall, minStack := minStack 6 1,
      maxStack := maxStack 6 1, memorySize := some memoryStaticCall }
  let s2 := setOp s1 RETURNDATASIZE
    { execute := opReturnDataSize, constantGas := GasQuickStep,
      minStack := minStack 0 1, maxStack := maxStack 0 1 }
  let s3 := setOp s2 RETURNDATACOPY
    { execute := opReturnDataCopy, constantGas := GasFastestStep,
      dynamicGas := some gasReturnDataCopy, minStack := minStack 3 0,
      maxStack := maxStack 3 0, memorySize := some memoryReturnDataCopy }
  setOp s3 REVERT
    { execute := opRevert, dynamicGas := some gasRevert,
      minStack := minStack 2 0, maxStack := maxStack 2 0,
      memorySize := some memoryRevert }

/-- `newByzantiumInstructionSet` (`src/unnamed/part_000`, lines 150-182). -/
def newByzantiumInstructionSet : Except PanicMsg JumpTable := do
  let instructionSet ← newSpuriousDragonInstructionSet
  validate (byzantiumPatch instructionSet)

/-- The Byzantium table before its final `validate`. -/
def byzantiumTable : JumpTable := byzantiumPatch spuriousDragonTable

open ExecName GasName MemName GoEthVM.params in
/-- The patches `newConstantinopleInstructionSet` applies
(`src/unnamed/part_000`, lines 113-144): assign SHL, SHR, SAR,
EXTCODEHASH and CREATE2. -/
def constantinoplePatch (s0 : JumpTable) : JumpTable :=
  let s1 := setOp s0 SHL
    { execute := opSHL, constantGas := GasFastestStep,
      minStack := minStack 2 1, maxStack := maxStack 2 1 }
  let s2 := setOp s1 SHR
    { execute := opSHR, constantGas := GasFastestStep,
      minStack := minStack 2 1, maxStack := maxStack 2 1 }
  let s3 := setOp s2 SAR
    { execute := opSAR, constantGas := GasFastestStep,
      minStack := minStack 2 1, maxStack := maxStack 2 1 }
  let s4 := setOp s3 EXTCODEHASH
    { execute := opExtCodeHash, constantGas := ExtcodeHashGasConstantinople,
      minStack := minStack 1 1, maxStack := maxStack 1 1 }
  setOp s4 CREATE2
    { execute := opCreate2, constantGas := Create2Gas,
      dynamicGas := some gasCreate2, minStack := minStack 4 1,
      maxStack := maxStack 4 1, memorySize := some memoryCreate2 }

/-- `newConstantinopleInstructionSet` (`src/unnamed/part_000`,
lines 111-146). -/
def newConstantinopleInstructionSet : Except PanicMsg JumpTable := do
  let instructionSet ← newByzantiumInstructionSet
  validate (constantinoplePatch instructionSet)

/-- The Constantinople table before its final `validate`. -/
def constantinopleTable : JumpTable := constantinoplePatch byzantiumTable

open ExecName GasName GoEthVM.params in
/-- Modelled from the spec: `enable1344` from `eips.go`, which is absent
from `src/`.  The spec says Istanbul adds the CHAINID opcode
(EIP-1344); the record mirrors the other zero-pop one-push environment
opcodes. -/
def enable1344 (jt : JumpTable) : JumpTable :=
  setOp jt CHAINID
    { execute := opChainID, constantGas := GasQuickStep,
      minStack := minStack 0 1, maxStack := maxStack 0 1 }

open ExecName GasName GoEthVM.params in
/-- Modelled from the spec: `enable1884` from `eips.go`, which is absent
from `src/`.  The spec says EIP-1884 reprices BALANCE, EXTCODEHASH and
SLOAD and adds the SELFBALANCE opcode. -/
def enable1884 (jt : JumpTable) : JumpTable :=
  let s1 := setConstantGas jt BALANCE BalanceGasEIP1884
  let s2 := setConstantGas s1 EXTCODEHASH ExtcodeHashGasEIP1884
  let s3 := setConstantGas s2 SLOAD SloadGasEIP1884
  setOp s3 SELFBALANCE
    { execute := opSelfBalance, constantGas := GasFastStep,
      minStack := minStack 0 1, maxStack := maxStack 0 1 }

/-- Modelled from the spec: `enable2200` from `eips.go`, which is absent
from `src/`.  The spec says EIP-2200 swaps SSTORE to the net-metered
dynamic-gas function. -/
def enable2200 (jt : JumpTable) : JumpTable :=
  setDynamicGas jt SSTORE GasName.gasSStoreEIP2200

/-- `newIstanbulInstructionSet` (`src/unnamed/part_000`, lines 99-107):
applies `enable1344`, `enable1884` and `enable2200` in that order. -/
def newIstanbulInstructionSet : Except PanicMsg JumpTable := do
  let instructionSet ← newConstantinopleInstructionSet
  validate (enable2200 (enable1884 (enable1344 instructionSet)))

/-- The Istanbul table before its final `validate`. -/
def istanbulTable : JumpTable := enable2200 (enable1884 (enable1344 constantinopleTable))

/-- Modelled from the spec: `enable2929` from `eips.go`, which is absent
from `src/`.  The spec says EIP-2929 switches SLOAD, SSTORE, BALANCE and
the EXTCODE* opcodes to access-list-aware dynamic-gas variants; no opcode
is added or removed. -/
def enable2929 (jt : JumpTable) : JumpTable :=
  let s1 := setDynamicGas jt SSTORE GasName.gasSStoreEIP2929
  let s2 := setDynamicGas s1 SLOAD GasName.gasSLoadEIP2929
  let s3 := setDynamicGas s2 BALANCE GasName.gasBalanceEIP2929
  let s4 := setDynamicGas s3 EXTCODESIZE GasName.gasExtCodeSizeEIP2929
  let s5 := setDynamicGas s4 EXTCODECOPY GasName.gasExtCodeCopyEIP2929
  setDynamicGas s5 EXTCODEHASH GasName.gasExtCodeHashEIP2929

/-- `newBerlinInstructionSet` (`src/unnamed/part_000`, lines 91-95). -/
def newBerlinInstructionSet : Except PanicMsg JumpTable := do
  let instructionSet ← newIstanbulInstructionSet
  validate (enable2929 instructionSet)

/-- The Berlin table before its final `validate`. -/
def berlinTable : JumpTable := enable2929 istanbulTable

/-- Modelled from the spec: `enable3529` from `eips.go`, which is absent
from `src/`.  The spec says EIP-3529 reduces refunds in SSTORE and
SELFDESTRUCT, i.e. swaps their dynamic-gas functions; no opcode is added
or removed. -/
def enable3529 (jt : JumpTable) : JumpTable :=
  let s1 := setDynamicGas jt SSTORE GasName.gasSStoreEIP3529
  setDynamicGas s1 SELFDESTRUCT GasName.gasSelfdestructEIP3529

open ExecName GoEthVM.params in
/-- Modelled from the spec: `enable3198` from `eips.go`, which is absent
from `src/`.  The spec says London adds the BASEFEE opcode (EIP-3198);
the record mirrors the other zero-pop one-push environment opcodes. -/
def enable3198 (jt : JumpTable) : JumpTable :=
  setOp jt BASEFEE
    { execute := opBaseFee, constantGas := GasQuickStep,
      minStack := minStack 0 1, maxStack := maxStack 0 1 }

/-- `newLondonInstructionSet` (`src/unnamed/part_000`, lines 82-87):
applies `enable3529` then `enable3198`. -/
def newLondonInstructionSet : Except PanicMsg JumpTable := do
  let instructionSet ← newBerlinInstructionSet
  validate (enable3198 (enable3529 instructionSet))

/-- The London table before its final `validate`. -/
def londonTable : JumpTable := enable3198 (enable3529 berlinTable)

/-- The nine per-fork tables (pre-`validate` values), in fork order. -/
def forkTables : List JumpTable :=
  [frontierTable, homesteadTable, tangerineWhistleTable, spuriousDragonTable,
   byzantiumTable, constantinopleTable, istanbulTable, berlinTable, londonTable]

lemma validate_eq_ok (jt : JumpTable) (h : validateOk jt = true) :
    validate jt = .ok jt := by
  unfold validate
  unfold validateOk at h
  cases hf : (List.range 256).findSome? (violation jt) with
  | none => rfl
  | some m => rw [hf] at h; simp at h

lemma validate_eq_error (jt : JumpTable) (h : validateOk jt = false) :
    ∃ msg, validate jt = .error msg := by
  unfold validate
  unfold validateOk at h
  cases hf : (List.range 256).findSome? (violation jt) with
  | none => rw [hf] at h; simp at h
  | some m => exact ⟨m, rfl⟩

lemma validate_error_of_violation (jt : JumpTable) (i : Nat) (hi : i < 256)
    (hv : violation jt i ≠ none) : ∃ msg, validate jt = .error msg := by
  unfold validate
  cases hf : (List.range 256).findSome? (violation jt) with
  | some m => exact ⟨m, rfl⟩
  | none =>
      rw [List.findSome?_eq_none_iff] at hf
      exact absurd (hf i (List.mem_range.mpr hi)) hv

lemma frontier_ok : newFrontierInstructionSet = .ok frontierTable :=
  validate_eq_ok _ (by decide)

lemma homestead_ok : newHomesteadInstructionSet = .ok homesteadTable := by
  unfold newHomesteadInstructionSet
  rw [frontier_ok]
  show validate homesteadTable = _
  exact validate_eq_ok _ (by decide)

lemma tangerineWhistle_ok :
    newTangerineWhistleInstructionSet = .ok tangerineWhistleTable := by
  unfold newTangerineWhistleInstructionSet
  rw [homestead_ok]
  show validate tangerineWhistleTable = _
  exact validate_eq_ok _ (by decide)

lemma spuriousDragon_ok :
    newSpuriousDragonInstructionSet = .ok spuriousDragonTable := by
  unfold newSpuriousDragonInstructionSet
  rw [tangerineWhistle_ok]
  show validate spuriousDragonTable = _
  exact validate_eq_ok _ (by decide)

lemma byzantium_ok : newByzantiumInstructionSet = .ok byzantiumTable := by
  unfold newByzantiumInstructionSet
  rw [spuriousDragon_ok]
  show validate byzantiumTable = _
  exact validate_eq_ok _ (by decide)

lemma constantinople_ok :
    newConstantinopleInstructionSet = .ok constantinopleTable := by
  unfold newConstantinopleInstructionSet
  rw [byzantium_ok]
  show validate constantinopleTable = _
  exact validate_eq_ok _ (by decide)

lemma istanbul_ok : newIstanbulInstructionSet = .ok istanbulTable := by
  unfold newIstanbulInstructionSet
  rw [constantinople_ok]
  show validate istanbulTable = _
  exact validate_eq_ok _ (by decide)

lemma berlin_ok : newBerlinInstructionSet = .ok berlinTable := by
  unfold newBerlinInstructionSet
  rw [istanbul_ok]
  show validate berlinTable = _
  exact validate_eq_ok _ (by decide)

lemma london_ok : newLondonInstructionSet = .ok londonTable := by
  unfold newLondonInstructionSet
  rw [berlin_ok]
  show validate londonTable = _
  exact validate_eq_ok _ (by decide)

/-- Slot `i` of `jt` holds a real instruction: it is populated and its
execute function is not the `opUndefined` sentinel. -/
def definedAt (jt : JumpTable) (i : Nat) : Bool :=
  match jt i with
  | some op => !(op.execute == ExecName.opUndefined)
  | none => false

/-- Every one of the 256 slots of `jt` is populated. -/
def tableAllSet (jt : JumpTable) : Bool :=
  (List.range 256).all fun i => (jt i).isSome

/-- Every populated slot of `jt` with `memorySize` set also has
`dynamicGas` set. -/
def tableCoupled (jt : JumpTable) : Bool :=
  (List.range 256).all fun i =>
    match jt i with
    | some op => !(op.memorySize.isSome && op.dynamicGas.isNone)
    | none => true

/-- Every one of the 256 slots of `jt` holds either a real instruction or
exactly the shared undefined sentinel record. -/
def tableSentinelOk (jt : JumpTable) : Bool :=
  (List.range 256).all fun i =>
    match jt i with
    | some op => !(op.execute == ExecName.opUndefined) || op == undefinedOp
    | none => false

/-- Thresholds of every populated slot of `jt` satisfy
`0 ≤ minStack ≤ maxStack ≤ 1024 + minStack`. -/
def tableThresholdOk (jt : JumpTable) : Bool :=
  (List.range 256).all fun i =>
    match jt i with
    | some op =>
        decide (0 ≤ op.minStack) && decide (op.minStack ≤ op.maxStack) &&
          decide (op.maxStack ≤ 1024 + op.minStack)
    | none => false

/-- Every slot defined in `a` is defined in `b`. -/
def definedSubset (a b : JumpTable) : Bool :=
  (List.range 256).all fun i => !definedAt a i || definedAt b i

/-- The opcode bytes that are defined in `b` but not in `a`, ascending. -/
def newlyDefined (a b : JumpTable) : List Nat :=
  (List.range 256).filter fun i => !definedAt a i && definedAt b i

/-- The error an undefined slot's execute function fails with
(`ErrInvalidOpCode`); the error values live in `errors.go`, which the
jump-table layer only passes through. -/
inductive VMError where
  | errInvalidOpCode
deriving DecidableEq

/-- Modelled from the spec: the body of `opUndefined` (in
`instructions.go`, which is absent from `src/`).  The spec fixes that the
undefined record's execute always fails with `InvalidOpcode`, whatever the
program counter and stack are; the stack argument stands for the whole
scope the real function receives and ignores. -/
def opUndefinedExec (pc : Nat) (stack : List Nat) : Except VMError (List Nat) :=
  Except.error VMError.errInvalidOpCode

/-- C1: in every fork table built by the new-layout constructors, a record
with a `memorySize` function also has a `dynamicGas` function; and
`validate` rejects (panics on) any table containing a record with
`memorySize` set and `dynamicGas` absent, instead of returning the table. -/
theorem C1_memorySize_implies_dynamicGas :
    (∀ jt ∈ forkTables, tableCoupled jt = true) ∧
    (∀ (jt : JumpTable) (i : Nat), i < 256 → ∀ op, jt i = some op →
      op.memorySize.isSome = true → op.dynamicGas = none →
      ∃ msg, validate jt = .error msg) := by
  constructor
  · decide
  · intro jt i hi op hop hmem hdyn
    apply validate_error_of_violation jt i hi
    unfold violation
    rw [hop]
    simp [hmem, hdyn]

/-- A record with `memorySize` set but no `dynamicGas`, and a table
holding it everywhere, used to exercise the rejection branch of C1. -/
def memWithoutDynOp : operation :=
  { execute := ExecName.opStop, memorySize := some MemName.memoryMStore }

/-- A table whose every slot is `memWithoutDynOp`. -/
def memWithoutDynTable : JumpTable := fun i => some memWithoutDynOp

theorem C1_witness :
    tableCoupled frontierTable = true ∧
    (∃ msg, validate memWithoutDynTable = .error msg) :=
  ⟨C1_memorySize_implies_dynamicGas.1 frontierTable
      (by unfold forkTables; exact List.mem_cons_self _ _),
   C1_memorySize_implies_dynamicGas.2 memWithoutDynTable 0 (by decide)
      memWithoutDynOp rfl rfl rfl⟩

/-- C2: in every constructed fork table all 256 slots are populated, every
slot is either a real instruction or exactly the shared undefined sentinel,
unassigned Frontier slots resolve to that sentinel, the sentinel has
`execute = opUndefined`, `minStack = 0` and `maxStack = 1024` (so no stack
depth between 0 and 1024 can fail its threshold checks), and the sentinel's
execute function always fails with InvalidOpcode. -/
theorem C2_undefined_sentinel :
    (∀ jt ∈ forkTables, tableAllSet jt = true ∧ tableSentinelOk jt = true) ∧
    ((List.range 256).all fun i =>
        (frontierEntries.find? (fun p => p.1 == i)).isSome ||
        decide (frontierTable i = some undefinedOp)) = true ∧
    undefinedOp.execute = ExecName.opUndefined ∧
    undefinedOp.minStack = 0 ∧
    undefinedOp.maxStack = 1024 ∧
    ((List.range 1025).all fun d =>
        decide (undefinedOp.minStack ≤ (d : Int)) &&
        decide ((d : Int) ≤ undefinedOp.maxStack)) = true ∧
    (∀ pc stack, opUndefinedExec pc stack = Except.error VMError.errInvalidOpCode) := by
  refine ⟨by decide, by decide, rfl, rfl, by decide, by decide, fun pc stack => rfl⟩

theorem C2_witness :
    tableAllSet londonTable = true ∧ tableSentinelOk londonTable = true :=
  C2_undefined_sentinel.1 londonTable (by
    unfold forkTables
    simp only [List.mem_cons, List.mem_singleton]
    tauto)

/-- C3 counterexample: the claim `max_stack ≤ 1024` fails on the code at a
concrete record: the SUB entry (byte 0x03) of the Frontier table has
`maxStack = maxStack(2, 1) = 1024 + 2 - 1 = 1025 > 1024`.  (CALL likewise
has 1030.) -/
theorem C3_counterexample :
    (frontierTable SUB).map operation.maxStack = some 1025 ∧
    (frontierTable CALL).map operation.maxStack = some 1030 ∧
    ¬ ((1025 : Int) ≤ 1024) := by
  refine ⟨by decide, by decide, by decide⟩

/-- C3 (amended): for every record in every fork table the thresholds
satisfy `0 ≤ min_stack ≤ max_stack ≤ 1024 + min_stack` (equivalently
`max_stack - min_stack ≤ 1024`); the bound `max_stack ≤ 1024` of the
original claim fails for opcodes popping more than they push, such as SUB
(maxStack 1025) and CALL (maxStack 1030). -/
theorem C3_thresholds :
    ∀ jt ∈ forkTables, tableThresholdOk jt = true := by decide

theorem C3_witness : tableThresholdOk frontierTable = true :=
  C3_thresholds frontierTable (by unfold forkTables; exact List.mem_cons_self _ _)

/-- The (pops, pushes) arity passed to the `minStack`/`maxStack` helper
family at each keyed entry of the Frontier constructor, in source order:
`minStack(p, q)` records `(p, q)`, `minDupStack(n)` expands to
`minStack(n, n+1)`, and `minSwapStack(n)` to `minStack(n, n)`. -/
def frontierArity : List (Nat × Int × Int) := [
  (STOP, 0, 0), (ADD, 2, 1), (MUL, 2, 1), (SUB, 2, 1),
  (DIV, 2, 1), (SDIV, 2, 1), (MOD, 2, 1), (SMOD, 2, 1),
  (ADDMOD, 3, 1), (MULMOD, 3, 1), (EXP, 2, 1), (SIGNEXTEND, 2, 1),
  (LT, 2, 1), (GT, 2, 1), (SLT, 2, 1), (SGT, 2, 1),
  (EQ, 2, 1), (ISZERO, 1, 1), (AND, 2, 1), (XOR, 2, 1),
  (OR, 2, 1), (NOT, 1, 1), (BYTE, 2, 1), (KECCAK256, 2, 1),
  (ADDRESS, 0, 1), (BALANCE, 1, 1), (ORIGIN, 0, 1), (CALLER, 0, 1),
  (CALLVALUE, 0, 1), (CALLDATALOAD, 1, 1), (CALLDATASIZE, 0, 1), (CALLDATACOPY, 3, 0),
  (CODESIZE, 0, 1), (CODECOPY, 3, 0), (GASPRICE, 0, 1), (EXTCODESIZE, 1, 1),
  (EXTCODECOPY, 4, 0), (BLOCKHASH, 1, 1), (COINBASE, 0, 1), (TIMESTAMP, 0, 1),
  (NUMBER, 0, 1), (DIFFICULTY, 0, 1), (GASLIMIT, 0, 1), (POP, 1, 0),
  (MLOAD, 1, 1), (MSTORE, 2, 0), (MSTORE8, 2, 0), (SLOAD, 1, 1),
  (SSTORE, 2, 0), (JUMP, 1, 0), (JUMPI, 2, 0), (PC, 0, 1),
  (MSIZE, 0, 1), (GAS, 0, 1), (JUMPDEST, 0, 0), (PUSH1, 0, 1),
  (PUSH1 + 1, 0, 1), (PUSH1 + 2, 0, 1), (PUSH1 + 3, 0, 1), (PUSH1 + 4, 0, 1),
  (PUSH1 + 5, 0, 1), (PUSH1 + 6, 0, 1), (PUSH1 + 7, 0, 1), (PUSH1 + 8, 0, 1),
  (PUSH1 + 9, 0, 1), (PUSH1 + 10, 0, 1), (PUSH1 + 11, 0, 1), (PUSH1 + 12, 0, 1),
  (PUSH1 + 13, 0, 1), (PUSH1 + 14, 0, 1), (PUSH1 + 15, 0, 1), (PUSH1 + 16, 0, 1),
  (PUSH1 + 17, 0, 1), (PUSH1 + 18, 0, 1), (PUSH1 + 19, 0, 1), (PUSH1 + 20, 0, 1),
  (PUSH1 + 21, 0, 1), (PUSH1 + 22, 0, 1), (PUSH1 + 23, 0, 1), (PUSH1 + 24, 0, 1),
  (PUSH1 + 25, 0, 1), (PUSH1 + 26, 0, 1), (PUSH1 + 27, 0, 1), (PUSH1 + 28, 0, 1),
  (PUSH1 + 29, 0, 1), (PUSH1 + 30, 0, 1), (PUSH1 + 31, 0, 1), (DUP1, 1, 2),
  (DUP1 + 1, 2, 3), (DUP1 + 2, 3, 4), (DUP1 + 3, 4, 5), (DUP1 + 4, 5, 6),
  (DUP1 + 5, 6, 7), (DUP1 + 6, 7, 8), (DUP1 + 7, 8, 9), (DUP1 + 8, 9, 10),
  (DUP1 + 9, 10, 11), (DUP1 + 10, 11, 12), (DUP1 + 11, 12, 13), (DUP1 + 12, 13, 14),
  (DUP1 + 13, 14, 15), (DUP1 + 14, 15, 16), (DUP1 + 15, 16, 17), (SWAP1, 2, 2),
  (SWAP1 + 1, 3, 3), (SWAP1 + 2, 4, 4), (SWAP1 + 3, 5, 5), (SWAP1 + 4, 6, 6),
  (SWAP1 + 5, 7, 7), (SWAP1 + 6, 8, 8), (SWAP1 + 7, 9, 9), (SWAP1 + 8, 10, 10),
  (SWAP1 + 9, 11, 11), (SWAP1 + 10, 12, 12), (SWAP1 + 11, 13, 13), (SWAP1 + 12, 14, 14),
  (SWAP1 + 13, 15, 15), (SWAP1 + 14, 16, 16), (SWAP1 + 15, 17, 17), (LOG0, 2, 0),
  (LOG0 + 1, 3, 0), (LOG0 + 2, 4, 0), (LOG0 + 3, 5, 0), (LOG0 + 4, 6, 0),
  (CREATE, 3, 1), (CALL, 7, 1), (CALLCODE, 7, 1), (RETURN, 2, 0),
  (SELFDESTRUCT, 1, 0)
]

/-- C4: every keyed entry of the Frontier table with arity `(p, q)` has
`min_stack = p` and `max_stack = 1024 - q + p`; in particular DUP-n has
`min_stack = n` and `max_stack = 1023`, and SWAP-n has `min_stack = n + 1`
and `max_stack = 1024`. -/
theorem C4_threshold_encoding :
    (frontierArity.all fun e =>
      match frontierTable e.1 with
      | some op =>
          decide (op.minStack = e.2.1) &&
          decide (op.maxStack = 1024 - e.2.2 + e.2.1)
      | none => false) = true ∧
    ((List.range 16).all fun k =>
      match frontierTable (DUP1 + k) with
      | some op =>
          decide (op.minStack = (k : Int) + 1) && decide (op.maxStack = 1023)
      | none => false) = true ∧
    ((List.range 16).all fun k =>
      match frontierTable (SWAP1 + k) with
      | some op =>
          decide (op.minStack = (k : Int) + 2) && decide (op.maxStack = 1024)
      | none => false) = true := by
  refine ⟨by decide, by decide, by decide⟩

/-- C5: across the ordered fork list, every opcode defined (not the
undefined sentinel) in one fork's table is defined in the next fork's
table: the layering never removes an opcode. -/
theorem C5_monotone_layering :
    (forkTables.zip forkTables.tail).all (fun p => definedSubset p.1 p.2) = true := by
  decide

/-- C6: the set of opcodes newly defined at each fork layer is exactly
DELEGATECALL at Homestead; RETURNDATASIZE, RETURNDATACOPY, STATICCALL and
REVERT at Byzantium; SHL, SHR, SAR, EXTCODEHASH and CREATE2 at
Constantinople; CHAINID and SELFBALANCE at Istanbul; BASEFEE at London;
and nothing at Tangerine Whistle, Spurious Dragon or Berlin.  Each listed
opcode was undefined in the immediately preceding fork's table. -/
theorem C6_fork_additions :
    newlyDefined frontierTable homesteadTable = [DELEGATECALL] ∧
    newlyDefined homesteadTable tangerineWhistleTable = [] ∧
    newlyDefined tangerineWhistleTable spuriousDragonTable = [] ∧
    newlyDefined spuriousDragonTable byzantiumTable =
      [RETURNDATASIZE, RETURNDATACOPY, STATICCALL, REVERT] ∧
    newlyDefined byzantiumTable constantinopleTable =
      [SHL, SHR, SAR, EXTCODEHASH, CREATE2] ∧
    newlyDefined constantinopleTable istanbulTable = [CHAINID, SELFBALANCE] ∧
    newlyDefined istanbulTable berlinTable = [] ∧
    newlyDefined berlinTable londonTable = [BASEFEE] := by
  refine ⟨by decide, by decide, by decide, by decide, by decide, by decide,
    by decide, by decide⟩

/-- The seven opcodes whose `constantGas` the Tangerine Whistle layer
reassigns (EIP-150). -/
def tangerineRepricedSlots : List Nat :=
  [BALANCE, EXTCODESIZE, SLOAD, EXTCODECOPY, CALL, CALLCODE, DELEGATECALL]

/-- At every repriced slot the Tangerine Whistle record equals the
Homestead record with only `constantGas` replaced (by a different value);
every other slot is unchanged. -/
def tangerineDiffOk : Bool :=
  (List.range 256).all fun i =>
    if tangerineRepricedSlots.contains i then
      match homesteadTable i, tangerineWhistleTable i with
      | some hOp, some tOp =>
          decide (tOp = { hOp with constantGas := tOp.constantGas }) &&
          !(hOp.constantGas == tOp.constantGas)
      | _, _ => false
    else decide (tangerineWhistleTable i = homesteadTable i)

/-- C7: the Tangerine Whistle table differs from the Homestead table only
in the `constantGas` of BALANCE, EXTCODESIZE, SLOAD, EXTCODECOPY, CALL,
CALLCODE and DELEGATECALL, each changed to its EIP-150 value; every other
field of every record and every other slot is unchanged. -/
theorem C7_tangerine_repricing_only :
    tangerineDiffOk = true ∧
    (tangerineWhistleTable BALANCE).map operation.constantGas =
      some params.BalanceGasEIP150 ∧
    (tangerineWhistleTable EXTCODESIZE).map operation.constantGas =
      some params.ExtcodeSizeGasEIP150 ∧
    (tangerineWhistleTable SLOAD).map operation.constantGas =
      some params.SloadGasEIP150 ∧
    (tangerineWhistleTable EXTCODECOPY).map operation.constantGas =
      some params.ExtcodeCopyBaseEIP150 ∧
    (tangerineWhistleTable CALL).map operation.constantGas =
      some params.CallGasEIP150 ∧
    (tangerineWhistleTable CALLCODE).map operation.constantGas =
      some params.CallGasEIP150 ∧
    (tangerineWhistleTable DELEGATECALL).map operation.constantGas =
      some params.CallGasEIP150 := by
  refine ⟨by decide, by decide, by decide, by decide, by decide, by decide,
    by decide, by decide⟩

lemma validateOk_of_ok {jt jt2 : JumpTable} (h : validate jt = .ok jt2) :
    validateOk jt = true := by
  unfold validate at h
  unfold validateOk
  cases hf : (List.range 256).findSome? (violation jt) with
  | none => rfl
  | some m => rw [hf] at h; simp at h

/-- A patch that breaks the memorySize/dynamicGas coupling at slot STOP,
used to exercise the abort branch of C9. -/
def breakingPatch (jt : JumpTable) : JumpTable :=
  setOp jt STOP { execute := ExecName.opStop, memorySize := some MemName.memoryMStore }

/-- C9: every fork constructor of the new layout passes its own result
through `validate` before returning it, so each of the nine constructors
returns `.ok` of a table that passes both validator checks; and a layer
`prev >>= (validate after patch)` whose patch breaks validation returns the
panic of the layer that introduced the violation. -/
theorem C9_every_layer_validated :
    (newFrontierInstructionSet = .ok frontierTable ∧
        validateOk frontierTable = true) ∧
    (newHomesteadInstructionSet = .ok homesteadTable ∧
        validateOk homesteadTable = true) ∧
    (newTangerineWhistleInstructionSet = .ok tangerineWhistleTable ∧
        validateOk tangerineWhistleTable = true) ∧
    (newSpuriousDragonInstructionSet = .ok spuriousDragonTable ∧
        validateOk spuriousDragonTable = true) ∧
    (newByzantiumInstructionSet = .ok byzantiumTable ∧
        validateOk byzantiumTable = true) ∧
    (newConstantinopleInstructionSet = .ok constantinopleTable ∧
        validateOk constantinopleTable = true) ∧
    (newIstanbulInstructionSet = .ok istanbulTable ∧
        validateOk istanbulTable = true) ∧
    (newBerlinInstructionSet = .ok berlinTable ∧
        validateOk berlinTable = true) ∧
    (newLondonInstructionSet = .ok londonTable ∧
        validateOk londonTable = true) ∧
    (∀ (prev : Except PanicMsg JumpTable) (patch : JumpTable → JumpTable)
        (t : JumpTable), prev = .ok t → validateOk (patch t) = false →
      ∃ msg, (prev >>= fun s => validate (patch s)) = .error msg) := by
  refine ⟨⟨frontier_ok, validateOk_of_ok frontier_ok⟩,
    ⟨homestead_ok, ?_⟩, ⟨tangerineWhistle_ok, ?_⟩, ⟨spuriousDragon_ok, ?_⟩,
    ⟨byzantium_ok, ?_⟩, ⟨constantinople_ok, ?_⟩, ⟨istanbul_ok, ?_⟩,
    ⟨berlin_ok, ?_⟩, ⟨london_ok, ?_⟩, ?_⟩
  case _ => exact validateOk_of_ok (by rw [← homestead_ok]; unfold newHomesteadInstructionSet; rw [frontier_ok]; rfl)
  case _ => exact validateOk_of_ok (by rw [← tangerineWhistle_ok]; unfold newTangerineWhistleInstructionSet; rw [homestead_ok]; rfl)
  case _ => exact validateOk_of_ok (by rw [← spuriousDragon_ok]; unfold newSpuriousDragonInstructionSet; rw [tangerineWhistle_ok]; rfl)
  case _ => exact validateOk_of_ok (by rw [← byzantium_ok]; unfold newByzantiumInstructionSet; rw [spuriousDragon_ok]; rfl)
  case _ => exact validateOk_of_ok (by rw [← constantinople_ok]; unfold newConstantinopleInstructionSet; rw [byzantium_ok]; rfl)
  case _ => exact validateOk_of_ok (by rw [← istanbul_ok]; unfold newIstanbulInstructionSet; rw [constantinople_ok]; rfl)
  case _ => exact validateOk_of_ok (by rw [← berlin_ok]; unfold newBerlinInstructionSet; rw [istanbul_ok]; rfl)
  case _ => exact validateOk_of_ok (by rw [← london_ok]; unfold newLondonInstructionSet; rw [berlin_ok]; rfl)
  case _ =>
    intro prev patch t hprev hbad
    subst hprev
    obtain ⟨msg, hmsg⟩ := validate_eq_error (patch t) hbad
    exact ⟨msg, hmsg⟩

theorem C9_witness :
    ∃ msg, ((Except.ok frontierTable : Except PanicMsg JumpTable) >>=
      fun s => validate (breakingPatch s)) = .error msg :=
  (C9_every_layer_validated.2.2.2.2.2.2.2.2.2)
    (Except.ok frontierTable) breakingPatch frontierTable rfl (by decide)

end New

namespace Old

/-- The old-layout `operation` record of `src/core/vm/jump_table.go`, with
the flag fields `halts/jumps/writes/valid/reverts/returns`.  Field defaults
are the Go zero values, so a literal listing only some fields means the
same thing it does in the source, and an unassigned array slot is the
record with every default. -/
structure operation where
  execute : Option ExecName := none
  validateStack : Option StackValidName := none
  memorySize : Option MemName := none
  halts : Bool := false
  jumps : Bool := false
  writes : Bool := false
  valid : Bool := false
  reverts : Bool := false
  returns : Bool := false
  constGas : Nat := 0
  dynamicGas : Option GasName := none
deriving DecidableEq

/-- The zero-value old-layout record left in unassigned array slots. -/
def zeroOperation : operation := {}

/-- The old-layout `[256]operation` array of record values. -/
abbrev OldJumpTable := Nat → operation

/-- Assignment `instructionSet[idx] = operation{...}` in the old layout. -/
def setOp (jt : OldJumpTable) (idx : Nat) (op : operation) : OldJumpTable :=
  fun i => if i = idx then op else jt i

open ExecName GasName MemName StackValidName GoEthVM.params in
/-- Part 1 of the keyed entries of the old-layout Frontier array literal (see `frontierEntries`). -/
def frontierEntries0 : List (Nat × operation) := [
  (STOP, { execute := some opStop, constGas := 0, validateStack := some (makeStackFunc 0 0), halts := true, valid := true }),
  (ADD, { execute := some opAdd, constGas := GasFastestStep, validateStack := some (makeStackFunc 2 1), valid := true }),
  (MUL, { execute := some opMul, constGas := GasFastStep, validateStack := some (makeStackFunc 2 1), valid := true }),
  (SUB, { execute := some opSub, constGas := GasFastestStep, validateStack := some (makeStackFunc 2 1), valid := true }),
  (DIV, { execute := some opDiv, constGas := GasFastStep, validateStack := some (makeStackFunc 2 1), valid := true }),
  (SDIV, { execute := some opSdiv, constGas := GasFastStep, validateStack := some (makeStackFunc 2 1), valid := true }),
  (MOD, { execute := some opMod, constGas := GasFastStep, validateStack := some (makeStackFunc 2 1), valid := true }),
  (SMOD, { execute := some opSmod, constGas := GasFastStep, validateStack := some (makeStackFunc 2 1), valid := true }),
  (ADDMOD, { execute := some opAddmod, constGas := GasMidStep, validateStack := some (makeStackFunc 3 1), valid := true }),
  (MULMOD, { execute := some opMulmod, constGas := GasMidStep, validateStack := some (makeStackFunc 3 1), valid := true }),
  (EXP, { execute := some opExp, dynamicGas := some gasExp, validateStack := some (makeStackFunc 2 1), valid := true }),
  (SIGNEXTEND, { execute := some opSignExtend, constGas := GasFastStep, validateStack := some (makeStackFunc 2 1), valid := true }),
  (LT, { execute := some opLt, constGas := GasFastestStep, validateStack := some (makeStackFunc 2 1), valid := true }),
  (GT, { execute := some opGt, constGas := GasFastestStep, validateStack := some (makeStackFunc 2 1), valid := true }),
  (SLT, { execute := some opSlt, constGas := GasFastestStep, validateStack := some (makeStackFunc 2 1), valid := true }),
  (SGT, { execute := some opSgt, constGas := GasFastestStep, validateStack := some (makeStackFunc 2 1), valid := true }),
  (EQ, { execute := some opEq, constGas := GasFastestStep, validateStack := some (makeStackFunc 2 1), valid := true }),
  (ISZERO, { execute := some opIszero, constGas := GasFastestStep, validateStack := some (makeStackFunc 1 1), valid := true }),
  (AND, { execute := some opAnd, constGas := GasFastestStep, validateStack := some (makeStackFunc 2 1), valid := true }),
  (XOR, { execute := some opXor, constGas := GasFastestStep, validateStack := some (makeStackFunc 2 1), valid := true }),
  (OR, { execute := some opOr, constGas := GasFastestStep, validateStack := some (makeStackFunc 2 1), valid := true }),
  (NOT, { execute := some opNot, constGas := GasFastestStep, validateStack := some (makeStackFunc 1 1), valid := true }),
  (BYTE, { execute := some opByte, constGas := GasFastestStep, validateStack := some (makeStackFunc 2 1), valid := true }),
  (SHA3, { execute := some opSha3, dynamicGas := some gasSha3, validateStack := some (makeStackFunc 2 1), memorySize := some memorySha3, valid := true }),
  (ADDRESS, { execute := some opAddress, constGas := GasQuickStep, validateStack := some (makeStackFunc 0 1), valid := true }),
  (BALANCE, { execute := some opBalance, dynamicGas := some gasBalance, validateStack := some (makeStackFunc 1 1), valid := true }),
  (ORIGIN, { execute := some opOrigin, constGas := GasQuickStep, validateStack := some (makeStackFunc 0 1), valid := true }),
  (CALLER, { execute := some opCaller, constGas := GasQuickStep, validateStack := some (makeStackFunc 0 1), valid := true }),
  (CALLVALUE, { execute := some opCallValue, constGas := GasQuickStep, validateStack := some (makeStackFunc 0 1), valid := true }),
  (CALLDATALOAD, { execute := some opCallDataLoad, constGas := GasFastestStep, validateStack := some (makeStackFunc 1 1), valid := true }),
  (CALLDATASIZE, { execute := some opCallDataSize, constGas := GasQuickStep, validateStack := some (makeStackFunc 0 1), valid := true }),
  (CALLDATACOPY, { execute := some opCallDataCopy, dynamicGas := some gasCallDataCopy, validateStack := some (makeStackFunc 3 0), memorySize := some memoryCallDataCopy, valid := true }),
  (CODESIZE, { execute := some opCodeSize, constGas := GasQuickStep, validateStack := some (makeStackFunc 0 1), valid := true })
]

open ExecName GasName MemName StackValidName GoEthVM.params in
/-- Part 2 of the keyed entries of the old-layout Frontier array literal (see `frontierEntries`). -/
def frontierEntries1 : List (Nat × operation) := [
  (CODECOPY, { execute := some opCodeCopy, dynamicGas := some gasCodeCopy, validateStack := some (makeStackFunc 3 0), memorySize := some memoryCodeCopy, valid := true }),
  (GASPRICE, { execute := some opGasprice, constGas := GasQuickStep, validateStack := some (makeStackFunc 0 1), valid := true }),
  (EXTCODESIZE, { execute := some opExtCodeSize, dynamicGas := some gasExtCodeSize, validateStack := some (makeStackFunc 1 1), valid := true }),
  (EXTCODECOPY, { execute := some opExtCodeCopy, dynamicGas := some gasExtCodeCopy, validateStack := some (makeStackFunc 4 0), memorySize := some memoryExtCodeCopy, valid := true }),
  (BLOCKHASH, { execute := some opBlockhash, constGas := GasExtStep, validateStack := some (makeStackFunc 1 1), valid := true }),
  (COINBASE, { execute := some opCoinbase, constGas := GasQuickStep, validateStack := some (makeStackFunc 0 1), valid := true }),
  (TIMESTAMP, { execute := some opTimestamp, constGas := GasQuickStep, validateStack := some (makeStackFunc 0 1), valid := true }),
  (NUMBER, { execute := some opNumber, constGas := GasQuickStep, validateStack := some (makeStackFunc 0 1), valid := true }),
  (DIFFICULTY, { execute := some opDifficulty, constGas := GasQuickStep, validateStack := some (makeStackFunc 0 1), valid := true }),
  (GASLIMIT, { execute := some opGasLimit, constGas := GasQuickStep, validateStack := some (makeStackFunc 0 1), valid := true }),
  (POP, { execute := some opPop, constGas := GasQuickStep, validateStack := some (makeStackFunc 1 0), valid := true }),
  (MLOAD, { execute := some opMload, dynamicGas := some gasMLoad, validateStack := some (makeStackFunc 1 1), memorySize := some memoryMLoad, valid := true }),
  (MSTORE, { execute := some opMstore, dynamicGas := some gasMStore, validateStack := some (makeStackFunc 2 0), memorySize := some memoryMStore, valid := true }),
  (MSTORE8, { execute := some opMstore8, dynamicGas := some gasMStore8, memorySize := some memoryMStore8, validateStack := some (makeStackFunc 2 0), valid := true }),
  (SLOAD, { execute := some opSload, dynamicGas := some gasSLoad, validateStack := some (makeStackFunc 1 1), valid := true }),
  (SSTORE, { execute := some opSstore, dynamicGas := some gasSStore, validateStack := some (makeStackFunc 2 0), writes := true, valid := true }),
  (JUMP, { execute := some opJump, constGas := GasMidStep, validateStack := some pop1push0, jumps := true, valid := true }),
  (JUMPI, { execute := some opJumpi, constGas := GasSlowStep, validateStack := some (makeStackFunc 2 0), jumps := true, valid := true }),
  (PC, { execute := some opPc, constGas := GasQuickStep, validateStack := some (makeStackFunc 0 1), valid := true }),
  (MSIZE, { execute := some opMsize, constGas := GasQuickStep, validateStack := some (makeStackFunc 0 1), valid := true }),
  (GAS, { execute := some opGas, constGas := GasQuickStep, validateStack := some (makeStackFunc 0 1), valid := true }),
  (JUMPDEST, { execute := some opJumpdest, constGas := JumpdestGas, validateStack := some pop0push0, valid := true }),
  (PUSH1, { execute := some push1, constGas := GasFastestStep, validateStack := some pop0push1, valid := true }),
  (PUSH1 + 1, { execute := some (makePush 2 2), constGas := GasFastestStep, validateStack := some pop0push1, valid := true }),
  (PUSH1 + 2, { execute := some (makePush 3 3), constGas := GasFastestStep, validateStack := some pop0push1, valid := true }),
  (PUSH1 + 3, { execute := some (makePush 4 4), constGas := GasFastestStep, validateStack := some (makeStackFunc 0 1), valid := true }),
  (PUSH1 + 4, { execute := some (makePush 5 5), constGas := GasFastestStep, validateStack := some (makeStackFunc 0 1), valid := true }),
  (PUSH1 + 5, { execute := some (makePush 6 6), constGas := GasFastestStep, validateStack := some (makeStackFunc 0 1), valid := true }),
  (PUSH1 + 6, { execute := some (makePush 7 7), constGas := GasFastestStep, validateStack := some (makeStackFunc 0 1), valid := true }),
  (PUSH1 + 7, { execute := some (makePush 8 8), constGas := GasFastestStep, validateStack := some (makeStackFunc 0 1), valid := true }),
  (PUSH1 + 8, { execute := some (makePush 9 9), constGas := GasFastestStep, validateStack := some (makeStackFunc 0 1), valid := true }),
  (PUSH1 + 9, { execute := some (makePush 10 10), constGas := GasFastestStep, validateStack := some (makeStackFunc 0 1), valid := true }),
  (PUSH1 + 10, { execute := some (makePush 11 11), constGas := GasFastestStep, validateStack := some (makeStackFunc 0 1), valid := true })
]

open ExecName GasName MemName StackValidName GoEthVM.params in
/-- Part 3 of the keyed entries of the old-layout Frontier array literal (see `frontierEntries`). -/
def frontierEntries2 : List (Nat × operation) := [
  (PUSH1 + 11, { execute := some (makePush 12 12), constGas := GasFastestStep, validateStack := some (makeStackFunc 0 1), valid := true }),
  (PUSH1 + 12, { execute := some (makePush 13 13), constGas := GasFastestStep, validateStack := some (makeStackFunc 0 1), valid := true }),
  (PUSH1 + 13, { execute := some (makePush 14 14), constGas := GasFastestStep, validateStack := some (makeStackFunc 0 1), valid := true }),
  (PUSH1 + 14, { execute := some (makePush 15 15), constGas := GasFastestStep, validateStack := some (makeStackFunc 0 1), valid := true }),
  (PUSH1 + 15, { execute := some (makePush 16 16), constGas := GasFastestStep, validateStack := some (makeStackFunc 0 1), valid := true }),
  (PUSH1 + 16, { execute := some (makePush 17 17), constGas := GasFastestStep, validateStack := some (makeStackFunc 0 1), valid := true }),
  (PUSH1 + 17, { execute := some (makePush 18 18), constGas := GasFastestStep, validateStack := some (makeStackFunc 0 1), valid := true }),
  (PUSH1 + 18, { execute := some (makePush 19 19), constGas := GasFastestStep, validateStack := some (makeStackFunc 0 1), valid := true }),
  (PUSH1 + 19, { execute := some (makePush 20 20), constGas := GasFastestStep, validateStack := some (makeStackFunc 0 1), valid := true }),
  (PUSH1 + 20, { execute := some (makePush 21 21), constGas := GasFastestStep, validateStack := some (makeStackFunc 0 1), valid := true }),
  (PUSH1 + 21, { execute := some (makePush 22 22), constGas := GasFastestStep, validateStack := some (makeStackFunc 0 1), valid := true }),
  (PUSH1 + 22, { execute := some (makePush 23 23), constGas := GasFastestStep, validateStack := some (makeStackFunc 0 1), valid := true }),
  (PUSH1 + 23, { execute := some (makePush 24 24), constGas := GasFastestStep, validateStack := some (makeStackFunc 0 1), valid := true }),
  (PUSH1 + 24, { execute := some (makePush 25 25), constGas := GasFastestStep, validateStack := some (makeStackFunc 0 1), valid := true }),
  (PUSH1 + 25, { execute := some (makePush 26 26), constGas := GasFastestStep, validateStack := some (makeStackFunc 0 1), valid := true }),
  (PUSH1 + 26, { execute := some (makePush 27 27), constGas := GasFastestStep, validateStack := some (makeStackFunc 0 1), valid := true }),
  (PUSH1 + 27, { execute := some (makePush 28 28), constGas := GasFastestStep, validateStack := some (makeStackFunc 0 1), valid := true }),
  (PUSH1 + 28, { execute := some (makePush 29 29), constGas := GasFastestStep, validateStack := some (makeStackFunc 0 1), valid := true }),
  (PUSH1 + 29, { execute := some (makePush 30 30), constGas := GasFastestStep, validateStack := some (makeStackFunc 0 1), valid := true }),
  (PUSH1 + 30, { execute := some (makePush 31 31), constGas := GasFastestStep, validateStack := some (makeStackFunc 0 1), valid := true }),
  (PUSH1 + 31, { execute := some (makePush 32 32), constGas := GasFastestStep, validateStack := some (makeStackFunc 0 1), valid := true }),
  (DUP1, { execute := some (makeDup 1), constGas := GasFastestStep, validateStack := some (makeDupStackFunc 1), valid := true }),
  (DUP1 + 1, { execute := some (makeDup 2), constGas := GasFastestStep, validateStack := some (makeDupStackFunc 2), valid := true }),
  (DUP1 + 2, { execute := some (makeDup 3), constGas := GasFastestStep, validateStack := some (makeDupStackFunc 3), valid := true }),
  (DUP1 + 3, { execute := some (makeDup 4), constGas := GasFastestStep, validateStack := some (makeDupStackFunc 4), valid := true }),
  (DUP1 + 4, { execute := some (makeDup 5), constGas := GasFastestStep, validateStack := some (makeDupStackFunc 5), valid := true }),
  (DUP1 + 5, { execute := some (makeDup 6), constGas := GasFastestStep, validateStack := some (makeDupStackFunc 6), valid := true }),
  (DUP1 + 6, { execute := some (makeDup 7), constGas := GasFastestStep, validateStack := some (makeDupStackFunc 7), valid := true }),
  (DUP1 + 7, { execute := some (makeDup 8), constGas := GasFastestStep, validateStack := some (makeDupStackFunc 8), valid := true }),
  (DUP1 + 8, { execute := some (makeDup 9), constGas := GasFastestStep, validateStack := some (makeDupStackFunc 9), valid := true }),
  (DUP1 + 9, { execute := some (makeDup 10), constGas := GasFastestStep, validateStack := some (makeDupStackFunc 10), valid := true }),
  (DUP1 + 10, { execute := some (makeDup 11), constGas := GasFastestStep, validateStack := some (makeDupStackFunc 11), valid := true }),
  (DUP1 + 11, { execute := some (makeDup 12), constGas := GasFastestStep, validateStack := some (makeDupStackFunc 12), valid := true })
]

open ExecName GasName MemName StackValidName GoEthVM.params in
/-- Part 4 of the keyed entries of the old-layout Frontier array literal (see `frontierEntries`). -/
def frontierEntries3 : List (Nat × operation) := [
  (DUP1 + 12, { execute := some (makeDup 13), constGas := GasFastestStep, validateStack := some (makeDupStackFunc 13), valid := true }),
  (DUP1 + 13, { execute := some (makeDup 14), constGas := GasFastestStep, validateStack := some (makeDupStackFunc 14), valid := true }),
  (DUP1 + 14, { execute := some (makeDup 15), constGas := GasFastestStep, validateStack := some (makeDupStackFunc 15), valid := true }),
  (DUP1 + 15, { execute := some (makeDup 16), constGas := GasFastestStep, validateStack := some (makeDupStackFunc 16), valid := true }),
  (SWAP1, { execute := some (makeSwap 1), constGas := GasFastestStep, validateStack := some (makeSwapStackFunc 2), valid := true }),
  (SWAP1 + 1, { execute := some (makeSwap 2), constGas := GasFastestStep, validateStack := some (makeSwapStackFunc 3), valid := true }),
  (SWAP1 + 2, { execute := some (makeSwap 3), constGas := GasFastestStep, validateStack := some (makeSwapStackFunc 4), valid := true }),
  (SWAP1 + 3, { execute := some (makeSwap 4), constGas := GasFastestStep, validateStack := some (makeSwapStackFunc 5), valid := true }),
  (SWAP1 + 4, { execute := some (makeSwap 5), constGas := GasFastestStep, validateStack := some (makeSwapStackFunc 6), valid := true }),
  (SWAP1 + 5, { execute := some (makeSwap 6), constGas := GasFastestStep, validateStack := some (makeSwapStackFunc 7), valid := true }),
  (SWAP1 + 6, { execute := some (makeSwap 7), constGas := GasFastestStep, validateStack := some (makeSwapStackFunc 8), valid := true }),
  (SWAP1 + 7, { execute := some (makeSwap 8), constGas := GasFastestStep, validateStack := some (makeSwapStackFunc 9), valid := true }),
  (SWAP1 + 8, { execute := some (makeSwap 9), constGas := GasFastestStep, validateStack := some (makeSwapStackFunc 10), valid := true }),
  (SWAP1 + 9, { execute := some (makeSwap 10), constGas := GasFastestStep, validateStack := some (makeSwapStackFunc 11), valid := true }),
  (SWAP1 + 10, { execute := some (makeSwap 11), constGas := GasFastestStep, validateStack := some (makeSwapStackFunc 12), valid := true }),
  (SWAP1 + 11, { execute := some (makeSwap 12), constGas := GasFastestStep, validateStack := some (makeSwapStackFunc 13), valid := true }),
  (SWAP1 + 12, { execute := some (makeSwap 13), constGas := GasFastestStep, validateStack := some (makeSwapStackFunc 14), valid := true }),
  (SWAP1 + 13, { execute := some (makeSwap 14), constGas := GasFastestStep, validateStack := some (makeSwapStackFunc 15), valid := true }),
  (SWAP1 + 14, { execute := some (makeSwap 15), constGas := GasFastestStep, validateStack := some (makeSwapStackFunc 16), valid := true }),
  (SWAP1 + 15, { execute := some (makeSwap 16), constGas := GasFastestStep, validateStack := some (makeSwapStackFunc 17), valid := true }),
  (LOG0, { execute := some (makeLog 0), dynamicGas := some (makeGasLog 0), validateStack := some (makeStackFunc 2 0), memorySize := some memoryLog, writes := true, valid := true }),
  (LOG0 + 1, { execute := some (makeLog 1), dynamicGas := some (makeGasLog 1), validateStack := some (makeStackFunc 3 0), memorySize := some memoryLog, writes := true, valid := true }),
  (LOG0 + 2, { execute := some (makeLog 2), dynamicGas := some (makeGasLog 2), validateStack := some (makeStackFunc 4 0), memorySize := some memoryLog, writes := true, valid := true }),
  (LOG0 + 3, { execute := some (makeLog 3), dynamicGas := some (makeGasLog 3), validateStack := some (makeStackFunc 5 0), memorySize := some memoryLog, writes := true, valid := true }),
  (LOG0 + 4, { execute := some (makeLog 4), dynamicGas := some (makeGasLog 4), validateStack := some (makeStackFunc 6 0), memorySize := some memoryLog, writes := true, valid := true }),
  (CREATE, { execute := some opCreate, dynamicGas := some gasCreate, validateStack := some (makeStackFunc 3 1), memorySize := some memoryCreate, writes := true, returns := true, valid := true }),
  (CALL, { execute := some opCall, dynamicGas := some gasCall, validateStack := some (makeStackFunc 7 1), memorySize := some memoryCall, returns := true, valid := true }),
  (CALLCODE, { execute := some opCallCode, dynamicGas := some gasCallCode, validateStack := some (makeStackFunc 7 1), memorySize := some memoryCall, returns := true, valid := true }),
  (RETURN, { execute := some opReturn, dynamicGas := some gasReturn, validateStack := some (makeStackFunc 2 0), memorySize := some memoryReturn, halts := true, valid := true }),
  (SELFDESTRUCT, { execute := some opSuicide, dynamicGas := some gasSuicide, validateStack := some (makeStackFunc 1 0), halts := true, writes := true, valid := true })
]

/-- The keyed entries of the `[256]operation{...}` literal of the
old-layout `newFrontierInstructionSet` (`src/core/vm/jump_table.go`,
lines 165-975), in source order; split into the chunks above only to keep
elaboration cheap. -/
def frontierEntries : List (Nat × operation) := frontierEntries0 ++ frontierEntries1 ++ frontierEntries2 ++ frontierEntries3

/-- The old-layout `newFrontierInstructionSet`
(`src/core/vm/jump_table.go`, lines 165-975): the array literal is
returned directly, with no undefined-sentinel fill and no validator;
unassigned slots keep the zero-value record. -/
def newFrontierInstructionSet : OldJumpTable :=
  fun i => ((frontierEntries.find? (fun p => p.1 == i)).map (fun p => p.2)).getD zeroOperation

open ExecName GasName MemName StackValidName GoEthVM.params in
/-- The old-layout `newHomesteadInstructionSet`
(`src/core/vm/jump_table.go`, lines 150-161). -/
def newHomesteadInstructionSet : OldJumpTable :=
  setOp newFrontierInstructionSet DELEGATECALL
    { execute := some opDelegateCall, dynamicGas := some gasDelegateCall,
      validateStack := some (makeStackFunc 6 1),
      memorySize := some memoryDelegateCall, valid := true, returns := true }

open ExecName GasName MemName StackValidName GoEthVM.params in
/-- The old-layout `newByzantiumInstructionSet`
(`src/core/vm/jump_table.go`, lines 112-146). -/
def newByzantiumInstructionSet : OldJumpTable :=
  let s1 := setOp newHomesteadInstructionSet STATICCALL
    { execute := some opStaticCall, dynamicGas := some gasStaticCall,
      validateStack := some (makeStackFunc 6 1),
      memorySize := some memoryStaticCall, valid := true, returns := true }
  let s2 := setOp s1 RETURNDATASIZE
    { execute := some opReturnDataSize, constGas := GasQuickStep,
      validateStack := some (makeStackFunc 0 1), valid := true }
  let s3 := setOp s2 RETURNDATACOPY
    { execute := some opReturnDataCopy, dynamicGas := some gasReturnDataCopy,
      validateStack := some (makeStackFunc 3 0),
      memorySize := some memoryReturnDataCopy, valid := true }
  setOp s3 REVERT
    { execute := some opRevert, dynamicGas := some gasRevert,
      validateStack := some (makeStackFunc 2 0), memorySize := some memoryRevert,
      valid := true, reverts := true, returns := true }

open ExecName GasName MemName StackValidName GoEthVM.params in
/-- The old-layout `newConstantinopleInstructionSet`
(`src/core/vm/jump_table.go`, lines 71-108). -/
def newConstantinopleInstructionSet : OldJumpTable :=
  let s1 := setOp newByzantiumInstructionSet SHL
    { execute := some opSHL, constGas := GasFastestStep,
      validateStack := some (makeStackFunc 2 1), valid := true }
  let s2 := setOp s1 SHR
    { execute := some opSHR, constGas := GasFastestStep,
      validateStack := some (makeStackFunc 2 1), valid := true }
  let s3 := setOp s2 SAR
    { execute := some opSAR, constGas := GasFastestStep,
      validateStack := some (makeStackFunc 2 1), valid := true }
  let s4 := setOp s3 EXTCODEHASH
    { execute := some opExtCodeHash, dynamicGas := some gasExtCodeHash,
      validateStack := some (makeStackFunc 1 1), valid := true }
  setOp s4 CREATE2
    { execute := some opCreate2, dynamicGas := some gasCreate2,
      validateStack := some (makeStackFunc 4 1), memorySize := some memoryCreate2,
      valid := true, writes := true, returns := true }

end Old

/-- C8: for every opcode byte, the old-layout Constantinople instruction
set (flag-field variant) marks it `valid` exactly when the new-layout
Constantinople table defines it as a real instruction rather than the
undefined sentinel: the two coexisting record layouts define the same set
of opcodes at Constantinople. -/
theorem C8_old_new_constantinople_agree :
    New.newConstantinopleInstructionSet = .ok New.constantinopleTable ∧
    ((List.range 256).all fun i =>
      (Old.newConstantinopleInstructionSet i).valid ==
        New.definedAt New.constantinopleTable i) = true :=
  ⟨New.constantinople_ok, by decide⟩

/-- C10: in the old-layout variant every opcode slot not explicitly
assigned remains the zero-value record (`valid = false`, `execute = nil`,
`constGas = 0`); no undefined-sentinel fill happens in that variant (the
SHL slot at old Byzantium is still the plain zero record, and slot 0x1e is
still zero even in the last old fork), and the old constructors return
their arrays directly, with no validator pass, so completeness checking is
left to the consumer through the `valid` flag. -/
theorem C10_old_unassigned_slots_zero :
    ((List.range 256).all fun i =>
      (Old.frontierEntries.find? (fun p => p.1 == i)).isSome ||
      decide (Old.newFrontierInstructionSet i = Old.zeroOperation)) = true ∧
    Old.zeroOperation.valid = false ∧
    Old.zeroOperation.execute = none ∧
    Old.zeroOperation.constGas = 0 ∧
    Old.newByzantiumInstructionSet SHL = Old.zeroOperation ∧
    Old.newConstantinopleInstructionSet 0x1e = Old.zeroOperation := by
  refine ⟨by decide, rfl, rfl, rfl, by decide, by decide⟩

end GoEthVM
